import Mathlib

/-!
Verification of the sample-PDF generator scripts
(generate_test_pdfs.py, generate_fire_insurance_pdfs.py,
generate_general_forms_pdfs.py, generate_liability_insurance_pdfs.py).

Each `create_*` renderer is a straight-line Python function that reads
fields out of a flat dict and emits drawn text lines and tables, via
reportlab.  We embed every renderer as a *template*: the ordered list of
emitted blocks, where each text line or table cell is a list of fragments
(string literals interleaved with record lookups carrying the format spec
used at that site: plain str-interpolation, `:,`, `:.2f`, `:.4f`,
`.lower()`, or the `int(v * w)` scaling in create_property_valuation).
A small interpreter `renderTmpl` evaluates a template against a record,
mirroring Python semantics: `dict[k]` raises KeyError naming the key,
formatting a non-number with `:,`/`:.Nf` raises ValueError, iterating a
non-sequence raises TypeError, `dict.get` never raises.  The batch
drivers are embedded over a tiny filesystem state (the spec's only
filesystem discipline: a write needs its parent directory to exist).
-/

set_option maxRecDepth 100000

namespace DocGen

/-- A record value: Python str, int, float literal (as exact decimal
`mant * 10 ^ (-exp)`), or list of strings. -/
inductive Value where
  | s (v : String)
  | i (v : Int)
  | d (mant : Int) (exp : Nat)
  | l (v : List String)
deriving DecidableEq, Repr

/-- Errors a render call can surface: Python KeyError (naming the missing
field), ValueError/TypeError from a format or iteration, and the
file-write error when the output directory is missing. -/
inductive RErr where
  | keyError (field : String)
  | typeError
  | ioError
deriving DecidableEq, Repr

/-- Result of a fallible rendering step. -/
inductive ROut (α : Type) where
  | ok (v : α)
  | fail (e : RErr)
deriving DecidableEq, Repr

/-- A record: flat mapping from field name to value (a Python dict literal). -/
abbrev Record := List (String × Value)

/-- First binding of a key (dict lookup without default). -/
def recFind : Record → String → Option Value
  | [], _ => none
  | (k, v) :: rest, key => if k = key then some v else recFind rest key

/-- Remove every binding of a key (used to state the missing-field claims). -/
def recErase (r : Record) (key : String) : Record :=
  r.filter (fun p => p.1 ≠ key)

/-- Structural worker for `natDigits` (the fuel bounds the recursion
depth so the kernel can evaluate it). -/
def natDigitsAux : Nat → Nat → List Char
  | 0, _ => []
  | fuel + 1, n =>
    if n < 10 then [Char.ofNat (48 + n)]
    else natDigitsAux fuel (n / 10) ++ [Char.ofNat (48 + n % 10)]

/-- Decimal digit characters of a natural number, most significant first. -/
def natDigits (n : Nat) : List Char := natDigitsAux (n + 1) n

theorem natDigitsAux_irrel : ∀ f1 f2 n, n < f1 → n < f2 →
    natDigitsAux f1 n = natDigitsAux f2 n := by
  intro f1
  induction f1 with
  | zero => omega
  | succ m ih =>
    intro f2 n h1 h2
    obtain ⟨k, hk⟩ : ∃ k, f2 = k + 1 := ⟨f2 - 1, by omega⟩
    subst hk
    by_cases h10 : n < 10
    · simp [natDigitsAux, h10]
    · have hdiv : n / 10 < n := Nat.div_lt_self (by omega) (by omega)
      simp only [natDigitsAux, h10, if_false]
      rw [ih k (n / 10) (by omega) (by omega)]

/-- The one-step unfolding of `natDigits`. -/
theorem natDigits_eq (n : Nat) : natDigits n =
    if n < 10 then [Char.ofNat (48 + n)]
    else natDigits (n / 10) ++ [Char.ofNat (48 + n % 10)] := by
  have hstep : natDigits n =
      if n < 10 then [Char.ofNat (48 + n)]
      else natDigitsAux n (n / 10) ++ [Char.ofNat (48 + n % 10)] := rfl
  by_cases h10 : n < 10
  · rw [hstep, if_pos h10, if_pos h10]
  · have hdiv : n / 10 < n := Nat.div_lt_self (by omega) (by omega)
    rw [hstep, if_neg h10, if_neg h10,
      natDigitsAux_irrel n (n / 10 + 1) (n / 10) hdiv (by omega)]
    rfl

/-- Structural worker for `commaGroupRev`. -/
def commaGroupRevAux : Nat → List Char → List Char
  | 0, ds => ds
  | fuel + 1, ds =>
    if ds.length ≤ 3 then ds
    else ds.take 3 ++ ',' :: commaGroupRevAux fuel (ds.drop 3)

/-- Insert a comma after every three characters, input and output being
reversed digit lists (the helper behind Python `format(n, ",")`). -/
def commaGroupRev (ds : List Char) : List Char := commaGroupRevAux ds.length ds

/-- Python `f"{n:,}"` for a natural number. -/
def pyCommaNat (n : Nat) : String :=
  String.mk (commaGroupRev (natDigits n).reverse).reverse

/-- Python `f"{n:,}"` for an int. -/
def pyCommaInt (n : Int) : String :=
  (if n < 0 then "-" else "") ++ pyCommaNat n.natAbs

/-- Python `str` of a natural number. -/
def pyNatStr (n : Nat) : String := String.mk (natDigits n)

/-- Python `str` of an int. -/
def pyIntStr (n : Int) : String :=
  (if n < 0 then "-" else "") ++ pyNatStr n.natAbs

/-- Left-pad a digit list with zeros to the given length. -/
def padZeros (ds : List Char) (k : Nat) : List Char :=
  List.replicate (k - ds.length) '0' ++ ds

/-- Python `str` of a float literal stored as `mant * 10 ^ (-exp)`. -/
def decStr (mant : Int) (exp : Nat) : String :=
  if exp = 0 then pyIntStr mant ++ ".0"
  else
    (if mant < 0 then "-" else "") ++ pyNatStr (mant.natAbs / 10 ^ exp) ++ "." ++
      String.mk (padZeros (natDigits (mant.natAbs % 10 ^ exp)) exp)

/-- Python `f"{x:,}"` of a float literal: grouped integer part, then the
fractional digits. -/
def pyCommaDec (mant : Int) (exp : Nat) : String :=
  if exp = 0 then pyCommaInt mant ++ ".0"
  else
    (if mant < 0 then "-" else "") ++ pyCommaNat (mant.natAbs / 10 ^ exp) ++ "." ++
      String.mk (padZeros (natDigits (mant.natAbs % 10 ^ exp)) exp)

/-- Round a/b to the nearest integer, ties to even (Python rounding). -/
def roundHalfEven (a b : Int) : Int :=
  let q := a.fdiv b
  let r := a.fmod b
  if 2 * r < b then q
  else if b < 2 * r then q + 1
  else if q % 2 = 0 then q else q + 1

/-- Fixed-point rendering of `m * 10 ^ (-p)` with exactly `p` fractional
digits (the shape of a Python `:.pf` result). -/
def renderFixed (m : Int) (p : Nat) : String :=
  (if m < 0 then "-" else "") ++ pyNatStr (m.natAbs / 10 ^ p) ++ "." ++
    String.mk (padZeros (natDigits (m.natAbs % 10 ^ p)) p)

/-- Python `f"{x:.pf}"` for a decimal `mant * 10 ^ (-exp)`. -/
def fixedDec (mant : Int) (exp p : Nat) : String :=
  if exp ≤ p then renderFixed (mant * (10 : Int) ^ (p - exp)) p
  else renderFixed (roundHalfEven mant ((10 : Int) ^ (exp - p))) p

/-- Python repr of a list of strings (only reachable through plain
interpolation of a list value, which no driver record exercises). -/
def pyListRepr (xs : List String) : String :=
  let q := String.mk [Char.ofNat 39]
  "[" ++ String.intercalate ", " (xs.map (fun x => q ++ x ++ q)) ++ "]"

/-- Python `str(v)` as used by plain f-string interpolation. -/
def Value.pyStr : Value → String
  | .s v => v
  | .i v => pyIntStr v
  | .d m e => decStr m e
  | .l xs => pyListRepr xs

/-- Format spec attached to a record lookup inside a template: plain
interpolation, `:,`, `:.pf`, `.lower()`, or the
`f-string of int(v * num/den)` then `:,` used by the valuation table. -/
inductive Fmt where
  | plain
  | comma
  | fixed (p : Nat)
  | lower
  | scaledComma (num den : Int)
deriving DecidableEq, Repr

/-- Apply a format spec to a value, mirroring Python failure modes. -/
def fmtValue : Fmt → Value → ROut String
  | .plain, v => .ok v.pyStr
  | .comma, .i n => .ok (pyCommaInt n)
  | .comma, .d m e => .ok (pyCommaDec m e)
  | .comma, _ => .fail .typeError
  | .fixed p, .i n => .ok (renderFixed (n * (10 : Int) ^ p) p)
  | .fixed p, .d m e => .ok (fixedDec m e p)
  | .fixed _, _ => .fail .typeError
  | .lower, .s v => .ok v.toLower
  | .lower, _ => .fail .typeError
  | .scaledComma num den, .i n => .ok (pyCommaInt ((n * num).tdiv den))
  | .scaledComma num den, .d m e => .ok (pyCommaInt ((m * num).tdiv (den * (10 : Int) ^ e)))
  | .scaledComma _ _, _ => .fail .typeError

/-- One fragment of an emitted line or cell: a string literal or a
required record lookup (`dict[key]`) with its format spec. -/
inductive Frag where
  | lit (s : String)
  | ref (key : String) (fmt : Fmt)
deriving DecidableEq, Repr

/-- Python iteration over a value (`for x in v`): lists yield their
items, strings yield their characters, numbers raise TypeError. -/
def Value.iterStrs : Value → ROut (List String)
  | .l xs => .ok xs
  | .s v => .ok (v.data.map (fun c => String.mk [c]))
  | _ => .fail .typeError

/-- Python truthiness of a value. -/
def Value.truthy : Value → Bool
  | .s v => !v.isEmpty
  | .i n => n != 0
  | .d m _ => m != 0
  | .l xs => !xs.isEmpty

/-- One emitted visual block: a drawn text line / paragraph, or a table
of rendered cells. -/
inductive Block where
  | line (s : String)
  | table (rows : List (List String))
deriving DecidableEq, Repr

/-- A template block: a paragraph of fragments, a table of cell-fragment
rows, a `record.get(key, dflt)` list section printing one bulleted line
per item, or the deed's `if record.get(key):` section that bullets the
items when truthy and emits a placeholder line otherwise. -/
inductive BTmpl where
  | para (frags : List Frag)
  | table (rows : List (List (List Frag)))
  | listGetDefault (key : String) (dflt : List String) (bullet : String)
  | truthyList (key : String) (bullet : String) (placeholder : String)
deriving DecidableEq, Repr

/-- Render a fragment list to a single string, left to right, with the
leftmost failure winning (Python f-string evaluation order). -/
def renderFrags (r : Record) : List Frag → ROut String
  | [] => .ok ""
  | .lit s :: rest =>
    match renderFrags r rest with
    | .ok t => .ok (s ++ t)
    | .fail e => .fail e
  | .ref k f :: rest =>
    match recFind r k with
    | none => .fail (.keyError k)
    | some v =>
      match fmtValue f v with
      | .fail e => .fail e
      | .ok s =>
        match renderFrags r rest with
        | .ok t => .ok (s ++ t)
        | .fail e => .fail e

/-- Render one table row (a list of cells). -/
def renderCells (r : Record) : List (List Frag) → ROut (List String)
  | [] => .ok []
  | c :: rest =>
    match renderFrags r c with
    | .fail e => .fail e
    | .ok s =>
      match renderCells r rest with
      | .fail e => .fail e
      | .ok ss => .ok (s :: ss)

/-- Render all table rows. -/
def renderRows (r : Record) : List (List (List Frag)) → ROut (List (List String))
  | [] => .ok []
  | row :: rest =>
    match renderCells r row with
    | .fail e => .fail e
    | .ok cs =>
      match renderRows r rest with
      | .fail e => .fail e
      | .ok rs => .ok (cs :: rs)

/-- Render one template block to its emitted blocks. -/
def renderBlock (r : Record) : BTmpl → ROut (List Block)
  | .para fs =>
    match renderFrags r fs with
    | .ok s => .ok [.line s]
    | .fail e => .fail e
  | .table rows =>
    match renderRows r rows with
    | .ok rs => .ok [.table rs]
    | .fail e => .fail e
  | .listGetDefault k dflt bullet =>
    match recFind r k with
    | none => .ok (dflt.map (fun x => .line (bullet ++ x)))
    | some v =>
      match v.iterStrs with
      | .ok xs => .ok (xs.map (fun x => .line (bullet ++ x)))
      | .fail e => .fail e
  | .truthyList k bullet placeholder =>
    match recFind r k with
    | none => .ok [.line placeholder]
    | some v =>
      if v.truthy then
        match v.iterStrs with
        | .ok xs => .ok (xs.map (fun x => .line (bullet ++ x)))
        | .fail e => .fail e
      else .ok [.line placeholder]

/-- Render a whole template: concatenation of its blocks' outputs, first
failure aborting the render (Python exception propagation). -/
def renderTmpl (r : Record) : List BTmpl → ROut (List Block)
  | [] => .ok []
  | b :: rest =>
    match renderBlock r b with
    | .fail e => .fail e
    | .ok bs =>
      match renderTmpl r rest with
      | .fail e => .fail e
      | .ok bss => .ok (bs ++ bss)

/-- Keys a fragment list reads with `dict[k]` (required lookups). -/
def fragKeys (fs : List Frag) : List String :=
  fs.filterMap (fun f => match f with | .ref k _ => some k | .lit _ => none)

/-- Required keys of a template block.  The optional-list blocks use
`dict.get` and so require nothing. -/
def blockKeys : BTmpl → List String
  | .para fs => fragKeys fs
  | .table rows => (rows.map (fun row => (row.map fragKeys).flatten)).flatten
  | .listGetDefault _ _ _ => []
  | .truthyList _ _ _ => []

/-- Required keys of a template: every field read by `dict[k]`. -/
def tmplReqKeys (t : List BTmpl) : List String :=
  (t.map blockKeys).flatten

/-- The ASCII apostrophe character, as a one-character string. -/
def apos : String := String.mk [Char.ofNat 39]

/-- A run of underscore characters (the blank-form placeholders). -/
def us (n : Nat) : String := String.mk (List.replicate n '_')

/-- A run of capital X characters (the passport redaction filler). -/
def xs (n : Nat) : String := String.mk (List.replicate n 'X')

/-! ### generate_test_pdfs.py (motor insurance) -/

/-- Template of `create_vehicle_registration` (canvas layout): every
drawn string, in call order. -/
def vehicle_registration_tmpl : List BTmpl := [
  .para [.lit "DEPARTMENT OF MOTOR VEHICLES"],
  .para [.lit "CERTIFICATE OF REGISTRATION"],
  .para [.lit "Document No: ", .ref "doc_number" .plain],
  .para [.lit "Issue Date: ", .ref "issue_date" .plain],
  .para [.lit "VEHICLE INFORMATION"],
  .para [.lit "Registration Number:"], .para [.ref "reg_number" .plain],
  .para [.lit "Vehicle Make:"], .para [.ref "make" .plain],
  .para [.lit "Vehicle Model:"], .para [.ref "model" .plain],
  .para [.lit "Year of Manufacture:"], .para [.ref "year" .plain],
  .para [.lit "Engine Number:"], .para [.ref "engine_number" .plain],
  .para [.lit "Chassis Number:"], .para [.ref "chassis_number" .plain],
  .para [.lit "Color:"], .para [.ref "color" .plain],
  .para [.lit "Fuel Type:"], .para [.ref "fuel_type" .plain],
  .para [.lit "OWNER INFORMATION"],
  .para [.lit "Full Name:"], .para [.ref "owner_name" .plain],
  .para [.lit "Address:"], .para [.ref "owner_address" .plain],
  .para [.lit "ID Number:"], .para [.ref "owner_id" .plain],
  .para [.lit "Phone:"], .para [.ref "owner_phone" .plain],
  .para [.lit "This is a sample document for testing purposes only"],
  .para [.lit "All information contained herein is fictional"]]

/-- `create_vehicle_registration(filename, vehicle_data)`. -/
def create_vehicle_registration (r : Record) : ROut (List Block) :=
  renderTmpl r vehicle_registration_tmpl

/-- Template of `create_drivers_license` (card canvas, front then back).
The back reads `driver_data.get('restrictions', ['NONE'])` and bullets
each entry. -/
def drivers_license_tmpl : List BTmpl := [
  .para [.lit "DRIVER LICENSE"],
  .para [.lit "License No: ", .ref "license_number" .plain],
  .para [.lit "Class: ", .ref "license_class" .plain],
  .para [.lit "Expires: ", .ref "expiry_date" .plain],
  .para [.lit "Name: ", .ref "full_name" .plain],
  .para [.lit "DOB: ", .ref "date_of_birth" .plain],
  .para [.lit "Address: ", .ref "address" .plain],
  .para [.lit "PHOTO"],
  .para [.lit "RESTRICTIONS & ENDORSEMENTS"],
  .listGetDefault "restrictions" ["NONE"] "• ",
  .para [.lit "This is a sample document for testing purposes only"]]

/-- `create_drivers_license(filename, driver_data)`. -/
def create_drivers_license (r : Record) : ROut (List Block) :=
  renderTmpl r drivers_license_tmpl

/-- Template of `create_vehicle_inspection_report` (flowing layout). -/
def vehicle_inspection_report_tmpl : List BTmpl := [
  .para [.lit "VEHICLE INSPECTION REPORT"],
  .table [
    [[.lit "Inspection Date:"], [.ref "inspection_date" .plain]],
    [[.lit "Inspector:"], [.ref "inspector_name" .plain]],
    [[.lit "License No:"], [.ref "inspector_license" .plain]],
    [[.lit "Station:"], [.ref "station_name" .plain]],
    [[.lit "Certificate No:"], [.ref "certificate_number" .plain]]],
  .para [.lit "VEHICLE DETAILS"],
  .table [
    [[.lit "Registration No:"], [.ref "reg_number" .plain]],
    [[.lit "Make/Model:"], [.ref "make" .plain, .lit " ", .ref "model" .plain]],
    [[.lit "Year:"], [.ref "year" .plain]],
    [[.lit "Mileage:"], [.ref "mileage" .plain]],
    [[.lit "VIN:"], [.ref "vin" .plain]]],
  .para [.lit "INSPECTION RESULTS"],
  .table [
    [[.lit "Component"], [.lit "Status"], [.lit "Notes"]],
    [[.lit "Brakes"], [.lit "PASS"], [.lit "Good condition"]],
    [[.lit "Lights"], [.lit "PASS"], [.lit "All functional"]],
    [[.lit "Tires"], [.lit "PASS"], [.lit "7/32\" tread depth"]],
    [[.lit "Steering"], [.lit "PASS"], [.lit "No play detected"]],
    [[.lit "Exhaust"], [.lit "PASS"], [.lit "Secure mounting"]],
    [[.lit "Mirrors"], [.lit "PASS"], [.lit "Clean and secure"]],
    [[.lit "Windshield"], [.lit "PASS"], [.lit "No cracks"]],
    [[.lit "Horn"], [.lit "PASS"], [.lit "Audible"]],
    [[.lit "Seat Belts"], [.lit "PASS"], [.lit "Functional"]]],
  .para [.lit "<b>OVERALL RESULT: ", .ref "result" .plain, .lit "</b>"],
  .para [.lit "This is a sample document for testing purposes only. All information is fictional."]]

/-- `create_vehicle_inspection_report(filename, inspection_data)`. -/
def create_vehicle_inspection_report (r : Record) : ROut (List Block) :=
  renderTmpl r vehicle_inspection_report_tmpl

/-- The fully hardcoded coverage table of `create_insurance_policy`,
including its Total Annual Premium row. -/
def insurance_policy_coverage_rows : List (List (List Frag)) := [
  [[.lit "Coverage Type"], [.lit "Limit"], [.lit "Deductible"], [.lit "Premium"]],
  [[.lit "Liability - Bodily Injury"], [.lit "$100,000/$300,000"], [.lit "N/A"], [.lit "$450.00"]],
  [[.lit "Liability - Property Damage"], [.lit "$50,000"], [.lit "N/A"], [.lit "$200.00"]],
  [[.lit "Comprehensive"], [.lit "ACV"], [.lit "$500"], [.lit "$180.00"]],
  [[.lit "Collision"], [.lit "ACV"], [.lit "$500"], [.lit "$220.00"]],
  [[.lit "Uninsured Motorist"], [.lit "$100,000/$300,000"], [.lit "N/A"], [.lit "$75.00"]],
  [[.lit ""], [.lit ""], [.lit "Total Annual Premium:"], [.lit "$1,125.00"]]]

/-- Template of `create_insurance_policy` (flowing layout).  The
coverage table, including its `Total Annual Premium` row, is entirely
hardcoded. -/
def insurance_policy_tmpl : List BTmpl := [
  .para [.lit "MOTOR VEHICLE INSURANCE POLICY"],
  .table [
    [[.lit "Policy Number:"], [.ref "policy_number" .plain]],
    [[.lit "Policy Period:"], [.ref "start_date" .plain, .lit " to ", .ref "end_date" .plain]],
    [[.lit "Insurance Company:"], [.ref "company_name" .plain]],
    [[.lit "Agent:"], [.ref "agent_name" .plain]],
    [[.lit "Issue Date:"], [.ref "issue_date" .plain]]],
  .para [.lit "INSURED INFORMATION"],
  .table [
    [[.lit "Name:"], [.ref "insured_name" .plain]],
    [[.lit "Address:"], [.ref "insured_address" .plain]],
    [[.lit "Phone:"], [.ref "insured_phone" .plain]],
    [[.lit "Email:"], [.ref "insured_email" .plain]],
    [[.lit "License Number:"], [.ref "license_number" .plain]]],
  .para [.lit "COVERED VEHICLE"],
  .table [
    [[.lit "Year/Make/Model:"],
     [.ref "vehicle_year" .plain, .lit " ", .ref "vehicle_make" .plain, .lit " ",
      .ref "vehicle_model" .plain]],
    [[.lit "VIN:"], [.ref "vehicle_vin" .plain]],
    [[.lit "License Plate:"], [.ref "license_plate" .plain]],
    [[.lit "Use:"], [.ref "vehicle_use" .plain]]],
  .para [.lit "COVERAGE DETAILS"],
  .table insurance_policy_coverage_rows,
  .para [.lit "This is a sample document for testing purposes only. All information is fictional."]]

/-- `create_insurance_policy(filename, policy_data)`. -/
def create_insurance_policy (r : Record) : ROut (List Block) :=
  renderTmpl r insurance_policy_tmpl

/-- Template of `create_claim_form(filename, claim_data, is_blank)`:
the `is_blank` flag switches each section between record-backed lines
and fixed underscore placeholder lines. -/
def claim_form_tmpl (is_blank : Bool) : List BTmpl :=
  [.para [.lit "MOTOR INSURANCE CLAIM FORM"]]
  ++ (if !is_blank then [
        .para [.lit "Claim Number: ", .ref "claim_number" .plain],
        .para [.lit "Date of Report: ", .ref "report_date" .plain]]
      else [
        .para [.lit ("Claim Number: " ++ us 24)],
        .para [.lit ("Date of Report: " ++ us 24)]])
  ++ [.para [.lit "SECTION 1: POLICY INFORMATION"]]
  ++ (if !is_blank then [
        .para [.lit "Policy Number: ", .ref "policy_number" .plain],
        .para [.lit "Insured Name: ", .ref "insured_name" .plain],
        .para [.lit "Phone Number: ", .ref "phone" .plain],
        .para [.lit "Email: ", .ref "email" .plain]]
      else [
        .para [.lit ("Policy Number: " ++ us 48)],
        .para [.lit ("Insured Name: " ++ us 48)],
        .para [.lit ("Phone Number: " ++ us 48)],
        .para [.lit ("Email: " ++ us 48)]])
  ++ [.para [.lit "SECTION 2: INCIDENT DETAILS"]]
  ++ (if !is_blank then [
        .para [.lit "Date of Loss: ", .ref "loss_date" .plain],
        .para [.lit "Time of Loss: ", .ref "loss_time" .plain],
        .para [.lit "Location: ", .ref "location" .plain],
        .para [.lit "Description: ", .ref "description" .plain]]
      else [
        .para [.lit ("Date of Loss: " ++ us 48)],
        .para [.lit ("Time of Loss: " ++ us 48)],
        .para [.lit ("Location: " ++ us 48)],
        .para [.lit "Description of Incident:"],
        .para [.lit (us 64)],
        .para [.lit (us 64)],
        .para [.lit (us 64)]])
  ++ [.para [.lit "SECTION 3: VEHICLE INFORMATION"]]
  ++ (if !is_blank then [
        .para [.lit "Year/Make/Model: ", .ref "vehicle" .plain],
        .para [.lit "License Plate: ", .ref "license_plate" .plain],
        .para [.lit "VIN: ", .ref "vin" .plain],
        .para [.lit "Estimated Damage: $", .ref "estimated_damage" .plain]]
      else [
        .para [.lit ("Year/Make/Model: " ++ us 48)],
        .para [.lit ("License Plate: " ++ us 48)],
        .para [.lit ("VIN: " ++ us 48)],
        .para [.lit ("Estimated Damage: $" ++ us 48)]])
  ++ [.para [.lit "CERTIFICATION"],
      .para [.lit "I certify that the information provided above is true and accurate to the best of my knowledge."]]
  ++ (if !is_blank then [
        .para [.lit "Signature: ", .ref "signature" .plain],
        .para [.lit "Date: ", .ref "signature_date" .plain]]
      else [
        .para [.lit ("Signature: " ++ us 48)],
        .para [.lit ("Date: " ++ us 48)]])
  ++ [.para [.lit "This is a sample document for testing purposes only. All information is fictional."]]

/-- `create_claim_form(filename, claim_data, is_blank)`. -/
def create_claim_form (r : Record) (is_blank : Bool) : ROut (List Block) :=
  renderTmpl r (claim_form_tmpl is_blank)

/-! ### generate_fire_insurance_pdfs.py (fire insurance) -/

/-- Template of `create_property_deed` (flowing layout).  The
encumbrances section checks `property_data.get('encumbrances')` for
truthiness: bullets if non-empty, otherwise a fixed placeholder line. -/
def property_deed_tmpl : List BTmpl := [
  .para [.lit "PROPERTY DEED"],
  .para [.lit "Deed Number: ", .ref "deed_number" .plain, .lit "<br/>Recording Date: ",
         .ref "recording_date" .plain, .lit "<br/>County: ", .ref "county" .plain],
  .para [.lit "LEGAL DESCRIPTION"],
  .para [.lit "\n    Property legally described as: ", .ref "legal_description" .plain,
         .lit "\n    \n    Street Address: ", .ref "street_address" .plain,
         .lit "\n    City: ", .ref "city" .plain, .lit ", State: ", .ref "state" .plain,
         .lit ", ZIP: ", .ref "zip_code" .plain,
         .lit "\n    \n    Parcel ID: ", .ref "parcel_id" .plain,
         .lit "\n    Lot Size: ", .ref "lot_size" .plain, .lit " square feet\n    "],
  .para [.lit "OWNERSHIP INFORMATION"],
  .table [
    [[.lit "Current Owner(s):"], [.ref "current_owner" .plain]],
    [[.lit "Previous Owner:"], [.ref "previous_owner" .plain]],
    [[.lit "Date of Transfer:"], [.ref "transfer_date" .plain]],
    [[.lit "Purchase Price:"], [.lit "$", .ref "purchase_price" .comma]],
    [[.lit "Property Type:"], [.ref "property_type" .plain]]],
  .para [.lit "ENCUMBRANCES AND LIENS"],
  .truthyList "encumbrances" "• " "None recorded as of the date of this deed.",
  .para [.lit ("\n    This deed has been recorded in the official records of the County Recorder" ++
         apos ++ "s Office.\n    This document certifies the legal ownership of the above-described property.\n    ")],
  .para [.lit "This is a sample document for testing purposes only. All information is fictional."]]

/-- `create_property_deed(filename, property_data)`. -/
def create_property_deed (r : Record) : ROut (List Block) :=
  renderTmpl r property_deed_tmpl

/-- Template of `create_building_permit` (canvas layout).  The approvals
section reads `permit_data.get('approvals', [])` and bullets each entry
with a checked-box marker; there is no placeholder when it is empty. -/
def building_permit_tmpl : List BTmpl := [
  .para [.lit "CITY BUILDING DEPARTMENT"],
  .para [.lit "BUILDING PERMIT"],
  .para [.lit "Permit No: ", .ref "permit_number" .plain],
  .para [.lit "Issue Date: ", .ref "issue_date" .plain],
  .para [.lit "Expiration: ", .ref "expiration_date" .plain],
  .para [.lit "PROPERTY INFORMATION"],
  .para [.lit "Property Address:"], .para [.ref "property_address" .plain],
  .para [.lit "Parcel Number:"], .para [.ref "parcel_number" .plain],
  .para [.lit "Zoning:"], .para [.ref "zoning" .plain],
  .para [.lit "Property Owner:"], .para [.ref "property_owner" .plain],
  .para [.lit "Owner Phone:"], .para [.ref "owner_phone" .plain],
  .para [.lit "PERMIT DETAILS"],
  .para [.lit "Work Description:"], .para [.ref "work_description" .plain],
  .para [.lit "Construction Type:"], .para [.ref "construction_type" .plain],
  .para [.lit "Estimated Cost:"], .para [.lit "$", .ref "estimated_cost" .comma],
  .para [.lit "Square Footage:"], .para [.ref "square_footage" .plain, .lit " sq ft"],
  .para [.lit "Number of Stories:"], .para [.ref "stories" .plain],
  .para [.lit "CONTRACTOR INFORMATION"],
  .para [.lit "Contractor Name:"], .para [.ref "contractor_name" .plain],
  .para [.lit "License Number:"], .para [.ref "contractor_license" .plain],
  .para [.lit "Phone:"], .para [.ref "contractor_phone" .plain],
  .para [.lit "Address:"], .para [.ref "contractor_address" .plain],
  .para [.lit "APPROVALS REQUIRED"],
  .listGetDefault "approvals" [] "☑ ",
  .para [.lit "This permit becomes void if work is not commenced within 180 days of issuance."],
  .para [.lit "All work must be performed in accordance with approved plans and specifications."],
  .para [.lit "This is a sample document for testing purposes only"],
  .para [.lit "All information contained herein is fictional"]]

/-- `create_building_permit(filename, permit_data)`. -/
def create_building_permit (r : Record) : ROut (List Block) :=
  renderTmpl r building_permit_tmpl

/-- Template of `create_fire_safety_certificate` (flowing layout). -/
def fire_safety_certificate_tmpl : List BTmpl := [
  .para [.lit "FIRE SAFETY CERTIFICATE"],
  .table [
    [[.lit "Certificate Number:"], [.ref "certificate_number" .plain]],
    [[.lit "Issue Date:"], [.ref "issue_date" .plain]],
    [[.lit "Expiration Date:"], [.ref "expiration_date" .plain]],
    [[.lit "Issuing Authority:"], [.ref "issuing_authority" .plain]],
    [[.lit "Inspector:"], [.ref "inspector_name" .plain]]],
  .para [.lit "PROPERTY INFORMATION"],
  .table [
    [[.lit "Property Address:"], [.ref "property_address" .plain]],
    [[.lit "Building Type:"], [.ref "building_type" .plain]],
    [[.lit "Occupancy Type:"], [.ref "occupancy_type" .plain]],
    [[.lit "Total Floor Area:"], [.ref "floor_area" .plain, .lit " sq ft"]],
    [[.lit "Number of Floors:"], [.ref "number_of_floors" .plain]]],
  .para [.lit "FIRE SAFETY SYSTEMS INSPECTION"],
  .table [
    [[.lit "System/Component"], [.lit "Status"], [.lit "Last Tested"], [.lit "Notes"]],
    [[.lit "Fire Alarm System"], [.lit "PASS"], [.ref "alarm_test_date" .plain], [.lit "All zones operational"]],
    [[.lit "Sprinkler System"], [.lit "PASS"], [.ref "sprinkler_test_date" .plain], [.lit "Adequate pressure"]],
    [[.lit "Emergency Exits"], [.lit "PASS"], [.ref "exit_test_date" .plain], [.lit "Clear and marked"]],
    [[.lit "Fire Extinguishers"], [.lit "PASS"], [.ref "extinguisher_test_date" .plain], [.lit "Properly charged"]],
    [[.lit "Emergency Lighting"], [.lit "PASS"], [.ref "lighting_test_date" .plain], [.lit "Battery backup OK"]],
    [[.lit "Fire Doors"], [.lit "PASS"], [.ref "door_test_date" .plain], [.lit "Self-closing mechanism OK"]]],
  .para [.lit "CERTIFICATION"],
  .para [.lit "\n    This certifies that the above-described property has been inspected and found to be in \n    compliance with applicable fire safety codes and regulations as of ",
         .ref "inspection_date" .plain,
         .lit ".\n    \n    This certificate is valid until ", .ref "expiration_date" .plain,
         .lit " unless revoked or suspended.\n    "],
  .table [
    [[.lit "Fire Marshal Signature:"], [.ref "marshal_signature" .plain]],
    [[.lit "Date Signed:"], [.ref "signature_date" .plain]],
    [[.lit "Badge Number:"], [.ref "badge_number" .plain]]],
  .para [.lit "This is a sample document for testing purposes only. All information is fictional."]]

/-- `create_fire_safety_certificate(filename, safety_data)`. -/
def create_fire_safety_certificate (r : Record) : ROut (List Block) :=
  renderTmpl r fire_safety_certificate_tmpl

/-- The valuation-approaches table of `create_property_valuation`: the
Weighted Value cells are `int(value * weight)` of single fields computed
by the renderer, and the Final Value cell is the `final_value` field. -/
def valuation_approaches_rows : List (List (List Frag)) := [
  [[.lit "Approach"], [.lit "Value Estimate"], [.lit "Weight"], [.lit "Weighted Value"]],
  [[.lit "Sales Comparison"], [.lit "$", .ref "sales_comparison" .comma], [.lit "60%"],
   [.lit "$", .ref "sales_comparison" (.scaledComma 60 100)]],
  [[.lit "Cost Approach"], [.lit "$", .ref "cost_approach" .comma], [.lit "25%"],
   [.lit "$", .ref "cost_approach" (.scaledComma 25 100)]],
  [[.lit "Income Approach"], [.lit "$", .ref "income_approach" .comma], [.lit "15%"],
   [.lit "$", .ref "income_approach" (.scaledComma 15 100)]],
  [[.lit ""], [.lit ""], [.lit "Final Value:"], [.lit "$", .ref "final_value" .comma]]]

/-- Template of `create_property_valuation` (flowing layout).  The
Weighted Value column is computed by the renderer itself as
`int(value * weight)` of a single field; the Final Value cell comes
verbatim from the `final_value` field. -/
def property_valuation_tmpl : List BTmpl := [
  .para [.lit "PROPERTY VALUATION REPORT"],
  .table [
    [[.lit "Report Number:"], [.ref "report_number" .plain]],
    [[.lit "Valuation Date:"], [.ref "valuation_date" .plain]],
    [[.lit "Report Date:"], [.ref "report_date" .plain]],
    [[.lit "Appraiser:"], [.ref "appraiser_name" .plain]],
    [[.lit "License Number:"], [.ref "appraiser_license" .plain]],
    [[.lit "Purpose:"], [.ref "purpose" .plain]]],
  .para [.lit "PROPERTY DESCRIPTION"],
  .table [
    [[.lit "Property Address:"], [.ref "property_address" .plain]],
    [[.lit "Legal Description:"], [.ref "legal_description" .plain]],
    [[.lit "Property Type:"], [.ref "property_type" .plain]],
    [[.lit "Year Built:"], [.ref "year_built" .plain]],
    [[.lit "Total Living Area:"], [.ref "living_area" .comma, .lit " sq ft"]],
    [[.lit "Lot Size:"], [.ref "lot_size" .comma, .lit " sq ft"]],
    [[.lit "Bedrooms:"], [.ref "bedrooms" .plain]],
    [[.lit "Bathrooms:"], [.ref "bathrooms" .plain]]],
  .para [.lit "VALUATION APPROACHES"],
  .table valuation_approaches_rows,
  .para [.lit "MARKET ANALYSIS"],
  .para [.lit "\n    The subject property is located in a ", .ref "market_conditions" .plain,
         .lit " market area. \n    Recent sales in the neighborhood range from $", .ref "low_comp" .comma,
         .lit " to $", .ref "high_comp" .comma,
         .lit ".\n    \n    Market trends indicate ", .ref "market_trend" .plain,
         .lit " property values in this area.\n    The local real estate market has been ",
         .ref "market_activity" .plain,
         .lit " with an average\n    days on market of ", .ref "days_on_market" .plain,
         .lit " days.\n    "],
  .para [.lit "APPRAISER CERTIFICATION"],
  .para [.lit "\n    I certify that, to the best of my knowledge and belief, the statements and information in this \n    report are true and correct. I have no present or prospective interest in the property that is \n    the subject of this report.\n    \n    This appraisal was prepared in accordance with the Uniform Standards of Professional Appraisal Practice.\n    "],
  .para [.lit "Appraiser Signature: ", .ref "appraiser_signature" .plain,
         .lit "<br/>Date: ", .ref "signature_date" .plain],
  .para [.lit "This is a sample document for testing purposes only. All information is fictional."]]

/-- `create_property_valuation(filename, valuation_data)`. -/
def create_property_valuation (r : Record) : ROut (List Block) :=
  renderTmpl r property_valuation_tmpl

/-- Template of `create_construction_specifications` (flowing layout;
every table after the project header is hardcoded). -/
def construction_specifications_tmpl : List BTmpl := [
  .para [.lit "CONSTRUCTION SPECIFICATIONS"],
  .table [
    [[.lit "Project Name:"], [.ref "project_name" .plain]],
    [[.lit "Project Address:"], [.ref "project_address" .plain]],
    [[.lit "Architect:"], [.ref "architect" .plain]],
    [[.lit "General Contractor:"], [.ref "contractor" .plain]],
    [[.lit "Project Manager:"], [.ref "project_manager" .plain]],
    [[.lit "Specification Date:"], [.ref "spec_date" .plain]]],
  .para [.lit "SECTION 1: FOUNDATION"],
  .table [
    [[.lit "Component"], [.lit "Specification"], [.lit "Standard/Code"]],
    [[.lit "Excavation"], [.lit ("Machine excavation to 8" ++ apos ++ " depth")], [.lit "ASTM D2488"]],
    [[.lit "Footings"], [.lit "24\" x 12\" reinforced concrete"], [.lit "ACI 318"]],
    [[.lit "Foundation Walls"], [.lit "8\" concrete block, Type N mortar"], [.lit "ASTM C90"]],
    [[.lit "Waterproofing"], [.lit "Membrane waterproofing system"], [.lit "ASTM D6164"]],
    [[.lit "Drainage"], [.lit "4\" perforated drain tile"], [.lit "ASTM D3034"]]],
  .para [.lit "SECTION 2: FRAMING"],
  .table [
    [[.lit "Component"], [.lit "Specification"], [.lit "Standard/Code"]],
    [[.lit "Floor Joists"], [.lit "2x10 SPF @ 16\" O.C."], [.lit "IRC 502"]],
    [[.lit "Wall Studs"], [.lit "2x6 SPF @ 16\" O.C."], [.lit "IRC 602"]],
    [[.lit "Roof Rafters"], [.lit "2x8 SPF @ 16\" O.C."], [.lit "IRC 802"]],
    [[.lit "Sheathing"], [.lit "7/16\" OSB, APA rated"], [.lit "APA PRP-108"]],
    [[.lit "Hardware"], [.lit "Simpson Strong-Tie connectors"], [.lit "ICC-ES reports"]]],
  .para [.lit "SECTION 3: FIRE SAFETY SYSTEMS"],
  .table [
    [[.lit "System"], [.lit "Specification"], [.lit "Standard/Code"]],
    [[.lit "Fire Alarm"], [.lit "Addressable system, 24V DC"], [.lit "NFPA 72"]],
    [[.lit "Sprinkler System"], [.lit "Wet pipe system, standard response"], [.lit "NFPA 13"]],
    [[.lit "Fire Extinguishers"], [.lit "2A:10B:C rated, wall mounted"], [.lit "NFPA 10"]],
    [[.lit "Emergency Exits"], [.lit "Illuminated exit signs, LED"], [.lit "NFPA 101"]],
    [[.lit "Fire Doors"], [.lit "90-minute rated, self-closing"], [.lit "NFPA 80"]]],
  .para [.lit "QUALITY CONTROL"],
  .para [.lit "\n    All materials and workmanship shall conform to applicable building codes and standards.\n    Regular inspections will be conducted at key milestones:\n    \n    • Foundation inspection before concrete pour\n    • Framing inspection before insulation\n    • Electrical rough-in inspection\n    • Plumbing rough-in inspection\n    • Fire safety systems testing and inspection\n    • Final building inspection\n    \n    All work must be performed by licensed contractors and inspected by certified inspectors.\n    "],
  .para [.lit "This is a sample document for testing purposes only. All information is fictional."]]

/-- `create_construction_specifications(filename, construction_data)`. -/
def create_construction_specifications (r : Record) : ROut (List Block) :=
  renderTmpl r construction_specifications_tmpl

/-! ### generate_general_forms_pdfs.py (general forms) -/

/-- Template of `create_id_card` (card canvas).  Its only fixed notice
is the redaction line; it carries no testing-purposes footer. -/
def id_card_tmpl : List BTmpl := [
  .para [.lit "IDENTIFICATION CARD"],
  .para [.lit "ID Number: ", .ref "id_number" .plain],
  .para [.lit "Issued: ", .ref "issue_date" .plain],
  .para [.lit "Expires: ", .ref "expiry_date" .plain],
  .para [.lit "Name: ", .ref "name_redacted" .plain],
  .para [.lit "DOB: ", .ref "dob_redacted" .plain],
  .para [.lit "Address: ", .ref "address_redacted" .plain],
  .para [.lit "PHOTO"],
  .para [.lit "REDACTED"],
  .para [.lit "SAMPLE DOCUMENT - PERSONAL INFO REDACTED FOR PRIVACY"]]

/-- `create_id_card(filename, id_data)`. -/
def create_id_card (r : Record) : ROut (List Block) :=
  renderTmpl r id_card_tmpl

/-- Template of `create_passport_sample` (card canvas).  Like the ID
card, the only fixed notice is the redaction line. -/
def passport_sample_tmpl : List BTmpl := [
  .para [.lit "UNITED STATES OF AMERICA"],
  .para [.lit "PASSPORT"],
  .para [.lit "Passport No: ", .ref "passport_number" .plain],
  .para [.lit "Type: ", .ref "passport_type" .plain],
  .para [.lit "Issued: ", .ref "issue_date" .plain],
  .para [.lit "Expires: ", .ref "expiry_date" .plain],
  .para [.lit "PERSONAL DATA (REDACTED)"],
  .para [.lit "Surname: ", .ref "surname_redacted" .plain],
  .para [.lit "Given Names: ", .ref "given_names_redacted" .plain],
  .para [.lit "Nationality: ", .ref "nationality" .plain],
  .para [.lit "Date of Birth: ", .ref "dob_redacted" .plain],
  .para [.lit "Place of Birth: ", .ref "pob_redacted" .plain],
  .para [.lit "Sex: ", .ref "sex_redacted" .plain],
  .para [.lit "PHOTO"],
  .para [.lit "REDACTED"],
  .para [.lit ("P<USA" ++ xs 25)],
  .para [.lit (xs 30)],
  .para [.lit "MACHINE READABLE ZONE REDACTED"],
  .para [.lit "SAMPLE DOCUMENT - PERSONAL INFO REDACTED FOR PRIVACY"]]

/-- `create_passport_sample(filename, passport_data)`. -/
def create_passport_sample (r : Record) : ROut (List Block) :=
  renderTmpl r passport_sample_tmpl

/-- Template of `create_proof_of_address` (flowing layout).  Charge
amounts use `:.2f`, unit rates `:.4f`; the Total Amount Due cell is the
`total_due` field formatted with `:.2f`. -/
def proof_of_address_tmpl : List BTmpl := [
  .para [.lit "CITY UTILITIES COMPANY"],
  .para [.lit "123 Utility Street, Springfield, IL 62701"],
  .para [.lit "Phone: (555) 123-UTIL | www.cityutilities.com"],
  .table [
    [[.lit "Account Number:"], [.ref "account_number" .plain]],
    [[.lit "Service Address:"], [.ref "service_address" .plain]],
    [[.lit "Billing Period:"], [.ref "billing_start" .plain, .lit " to ", .ref "billing_end" .plain]],
    [[.lit "Bill Date:"], [.ref "bill_date" .plain]],
    [[.lit "Due Date:"], [.ref "due_date" .plain]]],
  .para [.lit "BILLING INFORMATION"],
  .table [
    [[.lit "Customer Name:"], [.ref "customer_name" .plain]],
    [[.lit "Billing Address:"], [.ref "billing_address" .plain]],
    [[.lit "Account Type:"], [.ref "account_type" .plain]],
    [[.lit "Service Type:"], [.ref "service_type" .plain]]],
  .para [.lit "CURRENT CHARGES"],
  .table [
    [[.lit "Service"], [.lit "Usage"], [.lit "Rate"], [.lit "Amount"]],
    [[.lit "Electricity"], [.ref "kwh_usage" .plain, .lit " kWh"],
     [.lit "$", .ref "kwh_rate" (.fixed 4), .lit "/kWh"], [.lit "$", .ref "electric_charge" (.fixed 2)]],
    [[.lit "Natural Gas"], [.ref "gas_usage" .plain, .lit " Therms"],
     [.lit "$", .ref "gas_rate" (.fixed 4), .lit "/Therm"], [.lit "$", .ref "gas_charge" (.fixed 2)]],
    [[.lit "Water/Sewer"], [.ref "water_usage" .plain, .lit " Gallons"],
     [.lit "$", .ref "water_rate" (.fixed 4), .lit "/Gal"], [.lit "$", .ref "water_charge" (.fixed 2)]],
    [[.lit "Service Fee"], [.lit "1"], [.lit "$", .ref "service_fee" (.fixed 2)],
     [.lit "$", .ref "service_fee" (.fixed 2)]],
    [[.lit "Taxes"], [.lit ""], [.lit ""], [.lit "$", .ref "taxes" (.fixed 2)]],
    [[.lit "Total Amount Due"], [.lit ""], [.lit ""], [.lit "$", .ref "total_due" (.fixed 2)]]],
  .para [.lit "PAYMENT INFORMATION"],
  .para [.lit "\n    Please remit payment by ", .ref "due_date" .plain,
         .lit "\n    \n    Payment Options:\n    • Online: www.cityutilities.com/pay\n    • Phone: (555) 123-UTIL\n    • Mail: City Utilities, PO Box 12345, Springfield, IL 62701\n    • In Person: 123 Utility Street, Springfield, IL\n    \n    Thank you for your business!\n    "],
  .para [.lit "This is a sample document for testing purposes only. All information is fictional."]]

/-- `create_proof_of_address(filename, address_data)`. -/
def create_proof_of_address (r : Record) : ROut (List Block) :=
  renderTmpl r proof_of_address_tmpl

/-- Template of `create_bank_statement` (flowing layout).  All summary
amounts use `:.2f`; the Ending Balance cells are the `ending_balance`
field formatted with `:.2f`. -/
def bank_statement_tmpl : List BTmpl := [
  .para [.lit "FIRST NATIONAL BANK"],
  .para [.lit "456 Banking Street, Chicago, IL 60601"],
  .para [.lit "Phone: (312) 555-BANK | www.firstnationalbank.com"],
  .para [.lit "MONTHLY ACCOUNT STATEMENT"],
  .table [
    [[.lit "Account Holder:"], [.ref "account_holder" .plain]],
    [[.lit "Account Number:"], [.ref "account_number_redacted" .plain]],
    [[.lit "Account Type:"], [.ref "account_type" .plain]],
    [[.lit "Statement Period:"], [.ref "statement_start" .plain, .lit " to ", .ref "statement_end" .plain]],
    [[.lit "Statement Date:"], [.ref "statement_date" .plain]]],
  .para [.lit "ACCOUNT SUMMARY"],
  .table [
    [[.lit "Beginning Balance:"], [.lit "$", .ref "beginning_balance" (.fixed 2)]],
    [[.lit "Total Deposits:"], [.lit "$", .ref "total_deposits" (.fixed 2)]],
    [[.lit "Total Withdrawals:"], [.lit "$", .ref "total_withdrawals" (.fixed 2)]],
    [[.lit "Service Charges:"], [.lit "$", .ref "service_charges" (.fixed 2)]],
    [[.lit "Interest Earned:"], [.lit "$", .ref "interest_earned" (.fixed 2)]],
    [[.lit "Ending Balance:"], [.lit "$", .ref "ending_balance" (.fixed 2)]]],
  .para [.lit "TRANSACTION HISTORY (SAMPLE)"],
  .table [
    [[.lit "Date"], [.lit "Description"], [.lit "Withdrawal"], [.lit "Deposit"], [.lit "Balance"]],
    [[.ref "statement_start" .plain], [.lit "Beginning Balance"], [.lit ""], [.lit ""],
     [.lit "$", .ref "beginning_balance" (.fixed 2)]],
    [[.lit "XX/XX/XXXX"], [.lit "DEPOSIT - PAYROLL [REDACTED]"], [.lit ""], [.lit "XXX.XX"], [.lit "XXX.XX"]],
    [[.lit "XX/XX/XXXX"], [.lit "DEBIT CARD PURCHASE [REDACTED]"], [.lit "XXX.XX"], [.lit ""], [.lit "XXX.XX"]],
    [[.lit "XX/XX/XXXX"], [.lit "ONLINE TRANSFER [REDACTED]"], [.lit "XXX.XX"], [.lit ""], [.lit "XXX.XX"]],
    [[.lit "XX/XX/XXXX"], [.lit "ATM WITHDRAWAL [REDACTED]"], [.lit "XXX.XX"], [.lit ""], [.lit "XXX.XX"]],
    [[.lit "XX/XX/XXXX"], [.lit "DEPOSIT - MOBILE [REDACTED]"], [.lit ""], [.lit "XXX.XX"], [.lit "XXX.XX"]],
    [[.ref "statement_end" .plain], [.lit "Ending Balance"], [.lit ""], [.lit ""],
     [.lit "$", .ref "ending_balance" (.fixed 2)]]],
  .para [.lit "<b>PRIVACY NOTICE:</b> Specific transaction details and amounts have been redacted for privacy protection. This statement demonstrates format and layout only."],
  .para [.lit "This is a sample document for testing purposes only. All information is fictional."]]

/-- `create_bank_statement(filename, bank_data)`. -/
def create_bank_statement (r : Record) : ROut (List Block) :=
  renderTmpl r bank_statement_tmpl

/-- Template of `create_employment_letter` (flowing layout). -/
def employment_letter_tmpl : List BTmpl := [
  .para [.lit "GLOBAL TECHNOLOGY SOLUTIONS INC."],
  .para [.lit "789 Business Park Drive, Suite 500"],
  .para [.lit "Chicago, Illinois 60601"],
  .para [.lit "Phone: (312) 555-0199 | Fax: (312) 555-0198"],
  .para [.lit "Date: ", .ref "letter_date" .plain],
  .para [.lit "EMPLOYMENT VERIFICATION LETTER"],
  .para [.lit "To Whom It May Concern:"],
  .para [.lit "\n    This letter serves to verify the employment of <b>", .ref "employee_name" .plain,
         .lit "</b> \n    with Global Technology Solutions Inc.\n    \n    Employee Details:\n    • Full Name: ",
         .ref "employee_name" .plain, .lit "\n    • Employee ID: ", .ref "employee_id" .plain,
         .lit "\n    • Position/Title: ", .ref "position" .plain,
         .lit "\n    • Department: ", .ref "department" .plain,
         .lit "\n    • Employment Status: ", .ref "employment_status" .plain,
         .lit "\n    • Employment Start Date: ", .ref "start_date" .plain,
         .lit "\n    • Current Employment: ", .ref "current_status" .plain,
         .lit "\n    \n    Compensation Information:\n    • Current Annual Salary: $", .ref "annual_salary" .comma,
         .lit "\n    • Pay Frequency: ", .ref "pay_frequency" .plain,
         .lit "\n    • Employment Type: ", .ref "employment_type" .plain,
         .lit "\n    \n    Work Schedule:\n    • Standard Hours: ", .ref "standard_hours" .plain,
         .lit " hours per week\n    • Work Location: ", .ref "work_location" .plain,
         .lit "\n    \n    ", .ref "employee_name" .plain,
         .lit " is a valued member of our team and has consistently \n    demonstrated ",
         .ref "performance_note" .plain,
         .lit ". This employment verification is \n    provided for official purposes only.\n    \n    If you require any additional information or have questions regarding this verification, \n    please feel free to contact our Human Resources department at (312) 555-0199 ext. 1234 \n    or via email at hr@globaltechsolutions.com.\n    "],
  .para [.lit "\n    Sincerely,\n    \n    \n    \n    \n    Sarah Johnson\n    Director of Human Resources\n    Global Technology Solutions Inc.\n    Phone: (312) 555-0199 ext. 1234\n    Email: sjohnson@globaltechsolutions.com\n    "],
  .para [.lit "<i>This letter is confidential and intended solely for the purpose stated. Any unauthorized distribution or use is prohibited.</i>"],
  .para [.lit "This is a sample document for testing purposes only. All information is fictional."]]

/-- `create_employment_letter(filename, employment_data)`. -/
def create_employment_letter (r : Record) : ROut (List Block) :=
  renderTmpl r employment_letter_tmpl

/-- Template of `create_medical_certificate` (flowing layout). -/
def medical_certificate_tmpl : List BTmpl := [
  .para [.lit "SPRINGFIELD MEDICAL CENTER"],
  .para [.lit "123 Healthcare Drive, Springfield, IL 62701"],
  .para [.lit "Phone: (217) 555-CARE | Fax: (217) 555-CARE"],
  .para [.lit "MEDICAL CERTIFICATE"],
  .table [
    [[.lit "Certificate Number:"], [.ref "certificate_number" .plain]],
    [[.lit "Issue Date:"], [.ref "issue_date" .plain]],
    [[.lit "Physician:"], [.ref "physician_name" .plain]],
    [[.lit "License Number:"], [.ref "physician_license" .plain]],
    [[.lit "Specialty:"], [.ref "physician_specialty" .plain]]],
  .para [.lit "PATIENT INFORMATION"],
  .table [
    [[.lit "Patient Name:"], [.ref "patient_name" .plain]],
    [[.lit "Date of Birth:"], [.ref "patient_dob" .plain]],
    [[.lit "Patient ID:"], [.ref "patient_id" .plain]],
    [[.lit "Examination Date:"], [.ref "examination_date" .plain]]],
  .para [.lit "MEDICAL FINDINGS"],
  .para [.lit "\n    <b>Chief Complaint:</b> ", .ref "chief_complaint" .plain,
         .lit "\n    \n    <b>History of Present Illness:</b>\n    ", .ref "history_present_illness" .plain,
         .lit "\n    \n    <b>Physical Examination:</b>\n    • Vital Signs: BP ", .ref "blood_pressure" .plain,
         .lit ", HR ", .ref "heart_rate" .plain,
         .lit ", \n      Temp ", .ref "temperature" .plain,
         .lit "°F, Resp ", .ref "respiratory_rate" .plain,
         .lit "\n    • General Appearance: ", .ref "general_appearance" .plain,
         .lit "\n    • Relevant Findings: ", .ref "relevant_findings" .plain,
         .lit "\n    \n    <b>Diagnostic Tests:</b>\n    ", .ref "diagnostic_tests" .plain,
         .lit "\n    \n    <b>Assessment and Diagnosis:</b>\n    ", .ref "diagnosis" .plain,
         .lit "\n    \n    <b>Treatment Provided:</b>\n    ", .ref "treatment" .plain,
         .lit "\n    \n    <b>Work/Activity Restrictions:</b>\n    ", .ref "restrictions" .plain,
         .lit "\n    \n    <b>Follow-up Care:</b>\n    ", .ref "followup" .plain, .lit "\n    "],
  .para [.lit "\n    <b>PHYSICIAN CERTIFICATION:</b>\n    \n    I certify that I have examined the above-named patient on ",
         .ref "examination_date" .plain,
         .lit " \n    and that the information provided in this certificate is accurate to the best of my \n    medical knowledge and professional judgment.\n    \n    This certificate is issued for insurance/legal purposes as requested.\n    \n    Physician Signature: ",
         .ref "physician_signature" .plain,
         .lit "\n    Date: ", .ref "signature_date" .plain,
         .lit "\n    \n    Dr. ", .ref "physician_name" .plain, .lit ", ", .ref "physician_credentials" .plain,
         .lit "\n    ", .ref "physician_specialty" .plain,
         .lit "\n    License #: ", .ref "physician_license" .plain, .lit "\n    "],
  .para [.lit "<i>This medical certificate is confidential and contains protected health information. Distribution is restricted to authorized parties only.</i>"],
  .para [.lit "This is a sample document for testing purposes only. All information is fictional."]]

/-- `create_medical_certificate(filename, medical_data)`. -/
def create_medical_certificate (r : Record) : ROut (List Block) :=
  renderTmpl r medical_certificate_tmpl

/-! ### generate_liability_insurance_pdfs.py (liability insurance) -/

/-- Template of `create_business_registration` (canvas layout).  The
activities section reads `business_data.get('activities', [])` and
bullets each entry; nothing is emitted when it is absent or empty. -/
def business_registration_tmpl : List BTmpl := [
  .para [.lit "STATE DEPARTMENT OF COMMERCE"],
  .para [.lit "CERTIFICATE OF BUSINESS REGISTRATION"],
  .para [.lit "Registration No: ", .ref "registration_number" .plain],
  .para [.lit "Issue Date: ", .ref "issue_date" .plain],
  .para [.lit "Expiration: ", .ref "expiration_date" .plain],
  .para [.lit "BUSINESS INFORMATION"],
  .para [.lit "Business Name:"], .para [.ref "business_name" .plain],
  .para [.lit "DBA Name:"], .para [.ref "dba_name" .plain],
  .para [.lit "Business Type:"], .para [.ref "business_type" .plain],
  .para [.lit "Industry:"], .para [.ref "industry" .plain],
  .para [.lit "Federal EIN:"], .para [.ref "federal_ein" .plain],
  .para [.lit "State Tax ID:"], .para [.ref "state_tax_id" .plain],
  .para [.lit "BUSINESS ADDRESS"],
  .para [.lit "Street Address:"], .para [.ref "street_address" .plain],
  .para [.lit "City, State, ZIP:"],
  .para [.ref "city" .plain, .lit ", ", .ref "state" .plain, .lit " ", .ref "zip_code" .plain],
  .para [.lit "Phone:"], .para [.ref "phone" .plain],
  .para [.lit "Email:"], .para [.ref "email" .plain],
  .para [.lit "OWNER/OFFICER INFORMATION"],
  .para [.lit "Principal Owner:"], .para [.ref "principal_owner" .plain],
  .para [.lit "Title:"], .para [.ref "owner_title" .plain],
  .para [.lit "Ownership %:"], .para [.ref "ownership_percentage" .plain],
  .para [.lit "Owner Address:"], .para [.ref "owner_address" .plain],
  .para [.lit "AUTHORIZED BUSINESS ACTIVITIES"],
  .listGetDefault "activities" [] "• ",
  .para [.lit "This certificate is valid only for the business activities listed above."],
  .para [.lit "Any changes to business information must be reported within 30 days."],
  .para [.lit "This is a sample document for testing purposes only"],
  .para [.lit "All information contained herein is fictional"]]

/-- `create_business_registration(filename, business_data)`. -/
def create_business_registration (r : Record) : ROut (List Block) :=
  renderTmpl r business_registration_tmpl

/-- Template of `create_financial_statement` (flowing layout).  Every
total line, including TOTAL ASSETS and NET INCOME, is the corresponding
record field formatted with `:,`; nothing is summed by the renderer. -/
def financial_statement_tmpl : List BTmpl := [
  .para [.lit "FINANCIAL STATEMENT"],
  .table [
    [[.lit "Company Name:"], [.ref "company_name" .plain]],
    [[.lit "Statement Period:"], [.ref "period_start" .plain, .lit " to ", .ref "period_end" .plain]],
    [[.lit "Statement Date:"], [.ref "statement_date" .plain]],
    [[.lit "Prepared By:"], [.ref "prepared_by" .plain]],
    [[.lit "CPA Firm:"], [.ref "cpa_firm" .plain]]],
  .para [.lit "BALANCE SHEET"],
  .para [.lit "ASSETS"],
  .table [
    [[.lit "Current Assets"], [.lit ""], [.lit ""]],
    [[.lit "Cash and Cash Equivalents"], [.lit ""], [.lit "$", .ref "cash" .comma]],
    [[.lit "Accounts Receivable"], [.lit ""], [.lit "$", .ref "accounts_receivable" .comma]],
    [[.lit "Inventory"], [.lit ""], [.lit "$", .ref "inventory" .comma]],
    [[.lit "Prepaid Expenses"], [.lit ""], [.lit "$", .ref "prepaid_expenses" .comma]],
    [[.lit "Total Current Assets"], [.lit ""], [.lit "$", .ref "total_current_assets" .comma]],
    [[.lit ""], [.lit ""], [.lit ""]],
    [[.lit "Fixed Assets"], [.lit ""], [.lit ""]],
    [[.lit "Property, Plant & Equipment"], [.lit ""], [.lit "$", .ref "ppe" .comma]],
    [[.lit "Less: Accumulated Depreciation"], [.lit ""],
     [.lit "($", .ref "accumulated_depreciation" .comma, .lit ")"]],
    [[.lit "Net Fixed Assets"], [.lit ""], [.lit "$", .ref "net_fixed_assets" .comma]],
    [[.lit ""], [.lit ""], [.lit ""]],
    [[.lit "TOTAL ASSETS"], [.lit ""], [.lit "$", .ref "total_assets" .comma]]],
  .para [.lit "LIABILITIES AND EQUITY"],
  .table [
    [[.lit "Current Liabilities"], [.lit ""], [.lit ""]],
    [[.lit "Accounts Payable"], [.lit ""], [.lit "$", .ref "accounts_payable" .comma]],
    [[.lit "Accrued Expenses"], [.lit ""], [.lit "$", .ref "accrued_expenses" .comma]],
    [[.lit "Short-term Debt"], [.lit ""], [.lit "$", .ref "short_term_debt" .comma]],
    [[.lit "Total Current Liabilities"], [.lit ""], [.lit "$", .ref "total_current_liabilities" .comma]],
    [[.lit ""], [.lit ""], [.lit ""]],
    [[.lit "Long-term Debt"], [.lit ""], [.lit "$", .ref "long_term_debt" .comma]],
    [[.lit "Total Liabilities"], [.lit ""], [.lit "$", .ref "total_liabilities" .comma]],
    [[.lit ""], [.lit ""], [.lit ""]],
    [[.lit ("Shareholders" ++ apos ++ " Equity")], [.lit ""], [.lit ""]],
    [[.lit "Common Stock"], [.lit ""], [.lit "$", .ref "common_stock" .comma]],
    [[.lit "Retained Earnings"], [.lit ""], [.lit "$", .ref "retained_earnings" .comma]],
    [[.lit ("Total Shareholders" ++ apos ++ " Equity")], [.lit ""], [.lit "$", .ref "total_equity" .comma]],
    [[.lit ""], [.lit ""], [.lit ""]],
    [[.lit "TOTAL LIABILITIES & EQUITY"], [.lit ""], [.lit "$", .ref "total_liab_equity" .comma]]],
  .para [.lit "INCOME STATEMENT"],
  .table [
    [[.lit "Revenue"], [.lit ""], [.lit "$", .ref "revenue" .comma]],
    [[.lit "Cost of Goods Sold"], [.lit ""], [.lit "$", .ref "cogs" .comma]],
    [[.lit "Gross Profit"], [.lit ""], [.lit "$", .ref "gross_profit" .comma]],
    [[.lit ""], [.lit ""], [.lit ""]],
    [[.lit "Operating Expenses"], [.lit ""], [.lit ""]],
    [[.lit "Salaries and Benefits"], [.lit ""], [.lit "$", .ref "salaries" .comma]],
    [[.lit "Rent and Utilities"], [.lit ""], [.lit "$", .ref "rent_utilities" .comma]],
    [[.lit "Marketing and Advertising"], [.lit ""], [.lit "$", .ref "marketing" .comma]],
    [[.lit "Professional Services"], [.lit ""], [.lit "$", .ref "professional_services" .comma]],
    [[.lit "Other Operating Expenses"], [.lit ""], [.lit "$", .ref "other_expenses" .comma]],
    [[.lit "Total Operating Expenses"], [.lit ""], [.lit "$", .ref "total_operating_expenses" .comma]],
    [[.lit ""], [.lit ""], [.lit ""]],
    [[.lit "Operating Income"], [.lit ""], [.lit "$", .ref "operating_income" .comma]],
    [[.lit "Interest Expense"], [.lit ""], [.lit "$", .ref "interest_expense" .comma]],
    [[.lit "Net Income Before Taxes"], [.lit ""], [.lit "$", .ref "income_before_taxes" .comma]],
    [[.lit "Income Tax Expense"], [.lit ""], [.lit "$", .ref "tax_expense" .comma]],
    [[.lit "NET INCOME"], [.lit ""], [.lit "$", .ref "net_income" .comma]]],
  .para [.lit "This is a sample document for testing purposes only. All information is fictional."]]

/-- `create_financial_statement(filename, financial_data)`. -/
def create_financial_statement (r : Record) : ROut (List Block) :=
  renderTmpl r financial_statement_tmpl

/-- The coverage table of `create_liability_policy`: every premium cell
is a single record field with `:,`, and the Total Annual Premium cell is
the `total_premium` field. -/
def liability_policy_coverage_rows : List (List (List Frag)) := [
  [[.lit "Coverage"], [.lit "Each Occurrence"], [.lit "General Aggregate"], [.lit "Premium"]],
  [[.lit "Bodily Injury & Property Damage"], [.lit "$", .ref "each_occurrence" .comma],
   [.lit "$", .ref "general_aggregate" .comma], [.lit "$", .ref "bd_pd_premium" .comma]],
  [[.lit "Personal & Advertising Injury"], [.lit "$", .ref "personal_injury_limit" .comma],
   [.lit "Included in General Aggregate"], [.lit "$", .ref "personal_injury_premium" .comma]],
  [[.lit "Products-Completed Operations"], [.lit "$", .ref "products_ops_occurrence" .comma],
   [.lit "$", .ref "products_ops_aggregate" .comma], [.lit "$", .ref "products_ops_premium" .comma]],
  [[.lit "Medical Expenses"], [.lit "$", .ref "medical_expenses" .comma], [.lit "N/A"],
   [.lit "$", .ref "medical_premium" .comma]],
  [[.lit ""], [.lit ""], [.lit "Total Annual Premium:"], [.lit "$", .ref "total_premium" .comma]]]

/-- Template of `create_liability_policy` (flowing layout).  The Total
Annual Premium cell is the `total_premium` field formatted with `:,`. -/
def liability_policy_tmpl : List BTmpl := [
  .para [.lit "GENERAL LIABILITY INSURANCE POLICY"],
  .table [
    [[.lit "Policy Number:"], [.ref "policy_number" .plain]],
    [[.lit "Policy Period:"], [.ref "effective_date" .plain, .lit " to ", .ref "expiration_date" .plain]],
    [[.lit "Insurance Company:"], [.ref "insurance_company" .plain]],
    [[.lit "Producer/Agent:"], [.ref "agent_name" .plain]],
    [[.lit "Issue Date:"], [.ref "issue_date" .plain]]],
  .para [.lit "NAMED INSURED"],
  .table [
    [[.lit "Business Name:"], [.ref "business_name" .plain]],
    [[.lit "Business Address:"], [.ref "business_address" .plain]],
    [[.lit "Business Phone:"], [.ref "business_phone" .plain]],
    [[.lit "Principal Contact:"], [.ref "principal_contact" .plain]],
    [[.lit "Industry Classification:"], [.ref "industry_classification" .plain]]],
  .para [.lit "COVERAGE DETAILS"],
  .table liability_policy_coverage_rows,
  .para [.lit "DEDUCTIBLES"],
  .para [.lit "\n    Per Occurrence Deductible: $", .ref "deductible" .comma,
         .lit "\n    \n    The deductible applies to each covered occurrence. The insured is responsible for the \n    deductible amount before coverage begins.\n    "],
  .para [.lit "KEY EXCLUSIONS"],
  .para [.lit ("\n    This policy does not cover claims arising from:\n    \n    • Professional services (requires separate Professional Liability coverage)\n    • Cyber/data breach incidents (requires separate Cyber Liability coverage)\n    • Employment practices (requires separate Employment Practices Liability coverage)\n    • Pollution incidents (requires separate Environmental coverage)\n    • Aircraft, auto, or watercraft operations (require separate coverage)\n    • Workers" ++
         apos ++ " compensation (requires separate coverage)\n    • Intentional criminal acts\n    \n    This is a summary only. Please refer to the complete policy for all terms and conditions.\n    ")],
  .para [.lit "CLAIMS REPORTING"],
  .para [.lit "\n    Claims should be reported immediately to:\n    \n    Claims Department: ",
         .ref "claims_phone" .plain,
         .lit "\n    24-Hour Claims Hotline: ", .ref "claims_hotline" .plain,
         .lit "\n    Online Claims Reporting: ", .ref "claims_website" .plain,
         .lit "\n    \n    Prompt reporting is essential for proper claims handling.\n    "],
  .para [.lit "This is a sample document for testing purposes only. All information is fictional."]]

/-- `create_liability_policy(filename, policy_data)`. -/
def create_liability_policy (r : Record) : ROut (List Block) :=
  renderTmpl r liability_policy_tmpl

/-- Template of `create_contract_document` (flowing layout). -/
def contract_document_tmpl : List BTmpl := [
  .para [.lit "SERVICE AGREEMENT CONTRACT"],
  .table [
    [[.lit "Contract Number:"], [.ref "contract_number" .plain]],
    [[.lit "Effective Date:"], [.ref "effective_date" .plain]],
    [[.lit "Contract Term:"], [.ref "contract_term" .plain]],
    [[.lit "Total Contract Value:"], [.lit "$", .ref "contract_value" .comma]]],
  .para [.lit "CONTRACTING PARTIES"],
  .para [.lit "Service Provider:"],
  .table [
    [[.lit "Company Name:"], [.ref "provider_name" .plain]],
    [[.lit "Address:"], [.ref "provider_address" .plain]],
    [[.lit "Contact Person:"], [.ref "provider_contact" .plain]],
    [[.lit "Phone:"], [.ref "provider_phone" .plain]],
    [[.lit "Email:"], [.ref "provider_email" .plain]]],
  .para [.lit "Client:"],
  .table [
    [[.lit "Company Name:"], [.ref "client_name" .plain]],
    [[.lit "Address:"], [.ref "client_address" .plain]],
    [[.lit "Contact Person:"], [.ref "client_contact" .plain]],
    [[.lit "Phone:"], [.ref "client_phone" .plain]],
    [[.lit "Email:"], [.ref "client_email" .plain]]],
  .para [.lit "SCOPE OF WORK"],
  .para [.lit "\n    The Service Provider agrees to provide the following services:\n    \n    ",
         .ref "scope_of_work" .plain,
         .lit "\n    \n    Services will be performed at the following location(s):\n    ",
         .ref "service_location" .plain,
         .lit "\n    \n    Expected completion date: ", .ref "completion_date" .plain, .lit "\n    "],
  .para [.lit "PAYMENT TERMS"],
  .table [
    [[.lit "Payment Schedule"], [.lit "Amount"], [.lit "Due Date"]],
    [[.lit "Initial Payment"], [.lit "$", .ref "initial_payment" .comma], [.ref "initial_due_date" .plain]],
    [[.lit "Progress Payment 1"], [.lit "$", .ref "progress_payment_1" .comma], [.ref "progress_due_1" .plain]],
    [[.lit "Progress Payment 2"], [.lit "$", .ref "progress_payment_2" .comma], [.ref "progress_due_2" .plain]],
    [[.lit "Final Payment"], [.lit "$", .ref "final_payment" .comma], [.ref "final_due_date" .plain]],
    [[.lit "Total Contract Value"], [.lit "$", .ref "total_payments" .comma], [.lit ""]]],
  .para [.lit "INSURANCE REQUIREMENTS"],
  .para [.lit "\n    The Service Provider shall maintain the following minimum insurance coverage:\n    \n    • General Liability: $",
         .ref "required_gl_coverage" .comma,
         .lit "\x20per occurrence\n    • Professional Liability: $", .ref "required_pl_coverage" .comma,
         .lit ("\x20per claim\n    • Workers" ++ apos ++ " Compensation: As required by state law\n    • Commercial Auto: $"),
         .ref "required_auto_coverage" .comma,
         .lit "\x20combined single limit\n    \n    The Client shall be named as an additional insured on all applicable policies.\n    Certificates of Insurance must be provided before work commences.\n    "],
  .para [.lit "SIGNATURES"],
  .table [
    [[.lit "Service Provider"], [.lit ""], [.lit "Client"], [.lit ""]],
    [[.lit ""], [.lit ""], [.lit ""], [.lit ""]],
    [[.lit ("Signature: " ++ us 17)], [.lit ("Date: " ++ us 8)],
     [.lit ("Signature: " ++ us 17)], [.lit ("Date: " ++ us 8)]],
    [[.lit ""], [.lit ""], [.lit ""], [.lit ""]],
    [[.lit "Print Name: ", .ref "provider_signatory" .plain], [.lit ""],
     [.lit "Print Name: ", .ref "client_signatory" .plain], [.lit ""]],
    [[.lit "Title: ", .ref "provider_title" .plain], [.lit ""],
     [.lit "Title: ", .ref "client_title" .plain], [.lit ""]]],
  .para [.lit "This is a sample document for testing purposes only. All information is fictional."]]

/-- `create_contract_document(filename, contract_data)`. -/
def create_contract_document (r : Record) : ROut (List Block) :=
  renderTmpl r contract_document_tmpl

/-- Template of `create_risk_assessment` (flowing layout).  The summary
paragraph applies `.lower()` to the overall risk rating. -/
def risk_assessment_tmpl : List BTmpl := [
  .para [.lit "BUSINESS RISK ASSESSMENT REPORT"],
  .table [
    [[.lit "Assessment ID:"], [.ref "assessment_id" .plain]],
    [[.lit "Assessment Date:"], [.ref "assessment_date" .plain]],
    [[.lit "Conducted By:"], [.ref "assessor_name" .plain]],
    [[.lit "Company Assessed:"], [.ref "company_name" .plain]],
    [[.lit "Industry:"], [.ref "industry" .plain]],
    [[.lit "Assessment Type:"], [.ref "assessment_type" .plain]]],
  .para [.lit "EXECUTIVE SUMMARY"],
  .para [.lit "\n    Overall Risk Rating: ", .ref "overall_risk_rating" .plain,
         .lit "\n    \n    This risk assessment evaluates the potential liability exposures for ",
         .ref "company_name" .plain,
         .lit ".\n    Based on our analysis, the company presents a ", .ref "overall_risk_rating" .lower,
         .lit " risk profile \n    for general liability insurance purposes.\n    \n    Key areas of concern include ",
         .ref "key_concerns" .plain, .lit " while strengths include ", .ref "strengths" .plain, .lit ".\n    "],
  .para [.lit "RISK CATEGORY ANALYSIS"],
  .table [
    [[.lit "Risk Category"], [.lit "Risk Level"], [.lit "Impact"], [.lit "Likelihood"], [.lit "Mitigation Measures"]],
    [[.lit "Premises Liability"], [.ref "premises_risk" .plain], [.lit "High"], [.lit "Medium"],
     [.lit "Regular inspections, maintenance"]],
    [[.lit "Product Liability"], [.ref "product_risk" .plain], [.lit "Medium"], [.lit "Low"],
     [.lit "Quality control, testing"]],
    [[.lit "Professional Liability"], [.ref "professional_risk" .plain], [.lit "High"], [.lit "Medium"],
     [.lit "Training, procedures"]],
    [[.lit "Cyber Security"], [.ref "cyber_risk" .plain], [.lit "High"], [.lit "High"],
     [.lit "Security systems, training"]],
    [[.lit "Employment Practices"], [.ref "employment_risk" .plain], [.lit "Medium"], [.lit "Low"],
     [.lit "HR policies, training"]],
    [[.lit "Environmental"], [.ref "environmental_risk" .plain], [.lit "Low"], [.lit "Low"],
     [.lit "Compliance monitoring"]]],
  .para [.lit "RECOMMENDATIONS"],
  .para [.lit "\n    Based on this risk assessment, we recommend the following:\n    \n    1. Insurance Coverage:\n       • General Liability: $",
         .ref "recommended_gl_limit" .comma,
         .lit "\x20per occurrence\n       • Professional Liability: $", .ref "recommended_pl_limit" .comma,
         .lit "\x20per claim\n       • Cyber Liability: $", .ref "recommended_cyber_limit" .comma,
         .lit "\x20per incident\n    \n    2. Risk Management Improvements:\n       • ",
         .ref "improvement_1" .plain, .lit "\n       • ", .ref "improvement_2" .plain,
         .lit "\n       • ", .ref "improvement_3" .plain,
         .lit "\n    \n    3. Review Schedule:\n       • Annual risk assessment review\n       • Quarterly policy updates as needed\n       • Immediate notification of significant business changes\n    \n    Implementation of these recommendations should reduce the overall risk profile and \n    potentially lead to more favorable insurance terms.\n    "],
  .para [.lit "ASSESSOR CERTIFICATION"],
  .para [.lit "\n    This assessment was conducted in accordance with industry standard risk assessment practices.\n    The information contained in this report is based on data provided by the client and \n    observations made during the assessment process.\n    \n    Assessor: ",
         .ref "assessor_signature" .plain,
         .lit "\n    Certification: ", .ref "assessor_certification" .plain,
         .lit "\n    Date: ", .ref "signature_date" .plain, .lit "\n    "],
  .para [.lit "This is a sample document for testing purposes only. All information is fictional."]]

/-- `create_risk_assessment(filename, risk_data)`. -/
def create_risk_assessment (r : Record) : ROut (List Block) :=
  renderTmpl r risk_assessment_tmpl

/-! ### Driver sample records (the literal dicts in the generate_* functions) -/

/-- `vehicle_data_1` in `generate_motor_insurance_docs`. -/
def vehicle_data_1 : Record := [
  ("doc_number", .s "REG-2024-001234"),
  ("issue_date", .s "2024-03-15"),
  ("reg_number", .s "ABC-123-DE"),
  ("make", .s "Toyota"),
  ("model", .s "Camry"),
  ("year", .s "2022"),
  ("engine_number", .s "ENG789456123"),
  ("chassis_number", .s "CHS456789012"),
  ("color", .s "Silver"),
  ("fuel_type", .s "Gasoline"),
  ("owner_name", .s "John Michael Smith"),
  ("owner_address", .s "123 Main Street, Springfield, IL 62701"),
  ("owner_id", .s "ID123456789"),
  ("owner_phone", .s "(555) 123-4567")]

/-- `vehicle_data_2` in `generate_motor_insurance_docs`. -/
def vehicle_data_2 : Record := [
  ("doc_number", .s "REG-2024-005678"),
  ("issue_date", .s "2024-01-22"),
  ("reg_number", .s "XYZ-789-FG"),
  ("make", .s "Honda"),
  ("model", .s "Civic"),
  ("year", .s "2023"),
  ("engine_number", .s "ENG321654987"),
  ("chassis_number", .s "CHS987654321"),
  ("color", .s "Blue"),
  ("fuel_type", .s "Gasoline"),
  ("owner_name", .s "Sarah Elizabeth Johnson"),
  ("owner_address", .s "456 Oak Avenue, Chicago, IL 60601"),
  ("owner_id", .s "ID987654321"),
  ("owner_phone", .s "(555) 987-6543")]

/-- `driver_data_1` in `generate_motor_insurance_docs`. -/
def driver_data_1 : Record := [
  ("license_number", .s "DL123456789"),
  ("license_class", .s "Class C"),
  ("expiry_date", .s "2027-05-15"),
  ("full_name", .s "John Michael Smith"),
  ("date_of_birth", .s "1985-08-22"),
  ("address", .s "123 Main Street, Springfield, IL"),
  ("restrictions", .l ["CORRECTIVE LENSES"])]

/-- `driver_data_2` in `generate_motor_insurance_docs`. -/
def driver_data_2 : Record := [
  ("license_number", .s "DL987654321"),
  ("license_class", .s "Class C"),
  ("expiry_date", .s "2026-11-30"),
  ("full_name", .s "Sarah Elizabeth Johnson"),
  ("date_of_birth", .s "1990-03-10"),
  ("address", .s "456 Oak Avenue, Chicago, IL"),
  ("restrictions", .l ["NONE"])]

/-- `inspection_data` in `generate_motor_insurance_docs`. -/
def inspection_data : Record := [
  ("inspection_date", .s "2024-08-15"),
  ("inspector_name", .s "Robert Wilson"),
  ("inspector_license", .s "INS-54321"),
  ("station_name", .s "Central Auto Inspection Station"),
  ("certificate_number", .s "CERT-2024-789"),
  ("reg_number", .s "ABC-123-DE"),
  ("make", .s "Toyota"),
  ("model", .s "Camry"),
  ("year", .s "2022"),
  ("mileage", .s "25,485"),
  ("vin", .s "1HGCM82633A123456"),
  ("result", .s "PASS")]

/-- `policy_data` in `generate_motor_insurance_docs`. -/
def policy_data : Record := [
  ("policy_number", .s "POL-2024-567890"),
  ("start_date", .s "2024-01-01"),
  ("end_date", .s "2024-12-31"),
  ("company_name", .s "Sample Insurance Company"),
  ("agent_name", .s "Michael Thompson"),
  ("issue_date", .s "2023-12-15"),
  ("insured_name", .s "John Michael Smith"),
  ("insured_address", .s "123 Main Street, Springfield, IL 62701"),
  ("insured_phone", .s "(555) 123-4567"),
  ("insured_email", .s "john.smith@email.com"),
  ("license_number", .s "DL123456789"),
  ("vehicle_year", .s "2022"),
  ("vehicle_make", .s "Toyota"),
  ("vehicle_model", .s "Camry"),
  ("vehicle_vin", .s "1HGCM82633A123456"),
  ("license_plate", .s "ABC-123-DE"),
  ("vehicle_use", .s "Personal")]

/-- `claim_data` in `generate_motor_insurance_docs`. -/
def claim_data : Record := [
  ("claim_number", .s "CLM-2024-001234"),
  ("report_date", .s "2024-09-10"),
  ("policy_number", .s "POL-2024-567890"),
  ("insured_name", .s "John Michael Smith"),
  ("phone", .s "(555) 123-4567"),
  ("email", .s "john.smith@email.com"),
  ("loss_date", .s "2024-09-08"),
  ("loss_time", .s "2:30 PM"),
  ("location", .s "Intersection of Main St and Oak Ave, Springfield, IL"),
  ("description", .s "Rear-end collision at traffic light. Other driver failed to stop."),
  ("vehicle", .s "2022 Toyota Camry"),
  ("license_plate", .s "ABC-123-DE"),
  ("vin", .s "1HGCM82633A123456"),
  ("estimated_damage", .s "3,500"),
  ("signature", .s "John M. Smith"),
  ("signature_date", .s "2024-09-10")]

/-- `property_data` in `generate_fire_insurance_docs`. -/
def property_data : Record := [
  ("deed_number", .s "DEED-2024-789456"),
  ("recording_date", .s "2024-02-15"),
  ("county", .s "Cook County, Illinois"),
  ("legal_description", .s "Lot 15, Block 3, Meadowbrook Subdivision, as recorded in Plat Book 45, Page 123"),
  ("street_address", .s "789 Maple Drive"),
  ("city", .s "Springfield"),
  ("state", .s "Illinois"),
  ("zip_code", .s "62704"),
  ("parcel_id", .s "PIN-456-789-012"),
  ("lot_size", .i 8500),
  ("current_owner", .s "Robert and Linda Wilson"),
  ("previous_owner", .s "Thomas Anderson"),
  ("transfer_date", .s "2024-02-10"),
  ("purchase_price", .i 485000),
  ("property_type", .s "Single Family Residence"),
  ("encumbrances", .l ["Mortgage to First National Bank - $350,000", "Utility easement - 10 ft rear yard"])]

/-- `permit_data` in `generate_fire_insurance_docs`. -/
def permit_data : Record := [
  ("permit_number", .s "BP-2024-5678"),
  ("issue_date", .s "2024-06-01"),
  ("expiration_date", .s "2025-06-01"),
  ("property_address", .s "789 Maple Drive, Springfield, IL 62704"),
  ("parcel_number", .s "PIN-456-789-012"),
  ("zoning", .s "R-1 Single Family Residential"),
  ("property_owner", .s "Robert and Linda Wilson"),
  ("owner_phone", .s "(555) 234-5678"),
  ("work_description", .s "Two-story addition with family room and master bedroom"),
  ("construction_type", .s "Type V - Wood Frame"),
  ("estimated_cost", .i 85000),
  ("square_footage", .i 750),
  ("stories", .s "2"),
  ("contractor_name", .s "Superior Construction LLC"),
  ("contractor_license", .s "CON-789456"),
  ("contractor_phone", .s "(555) 345-6789"),
  ("contractor_address", .s "123 Builder Lane, Springfield, IL"),
  ("approvals", .l ["Building Department Review", "Fire Department Review", "Electrical Permit",
                    "Plumbing Permit", "HVAC Permit"])]

/-- `safety_data` in `generate_fire_insurance_docs`. -/
def safety_data : Record := [
  ("certificate_number", .s "FSC-2024-3456"),
  ("issue_date", .s "2024-07-20"),
  ("expiration_date", .s "2025-07-20"),
  ("issuing_authority", .s "Springfield Fire Department"),
  ("inspector_name", .s "Captain James Rodriguez"),
  ("property_address", .s "789 Maple Drive, Springfield, IL 62704"),
  ("building_type", .s "Single Family Residence"),
  ("occupancy_type", .s "Residential - Single Family"),
  ("floor_area", .i 2850),
  ("number_of_floors", .s "2"),
  ("inspection_date", .s "2024-07-18"),
  ("alarm_test_date", .s "2024-07-18"),
  ("sprinkler_test_date", .s "N/A - Not Required"),
  ("exit_test_date", .s "2024-07-18"),
  ("extinguisher_test_date", .s "2024-07-18"),
  ("lighting_test_date", .s "2024-07-18"),
  ("door_test_date", .s "2024-07-18"),
  ("marshal_signature", .s "Captain J. Rodriguez"),
  ("signature_date", .s "2024-07-20"),
  ("badge_number", .s "FD-4567")]

/-- `valuation_data` in `generate_fire_insurance_docs`. -/
def valuation_data : Record := [
  ("report_number", .s "APR-2024-7890"),
  ("valuation_date", .s "2024-08-01"),
  ("report_date", .s "2024-08-05"),
  ("appraiser_name", .s "Michelle Thompson, MAI"),
  ("appraiser_license", .s "CRA-5678"),
  ("purpose", .s "Insurance Coverage Determination"),
  ("property_address", .s "789 Maple Drive, Springfield, IL 62704"),
  ("legal_description", .s "Lot 15, Block 3, Meadowbrook Subdivision"),
  ("property_type", .s "Single Family Residence"),
  ("year_built", .s "2018"),
  ("living_area", .i 2850),
  ("lot_size", .i 8500),
  ("bedrooms", .s "4"),
  ("bathrooms", .s "3.5"),
  ("sales_comparison", .i 495000),
  ("cost_approach", .i 485000),
  ("income_approach", .i 490000),
  ("final_value", .i 492000),
  ("market_conditions", .s "stable"),
  ("low_comp", .i 450000),
  ("high_comp", .i 525000),
  ("market_trend", .s "slightly increasing"),
  ("market_activity", .s "moderate"),
  ("days_on_market", .i 35),
  ("appraiser_signature", .s "Michelle Thompson, MAI"),
  ("signature_date", .s "2024-08-05")]

/-- `construction_data` in `generate_fire_insurance_docs`. -/
def construction_data : Record := [
  ("project_name", .s "Wilson Residence Addition"),
  ("project_address", .s "789 Maple Drive, Springfield, IL 62704"),
  ("architect", .s "Johnson Architecture & Design"),
  ("contractor", .s "Superior Construction LLC"),
  ("project_manager", .s "David Martinez"),
  ("spec_date", .s "2024-05-15")]

/-- `id_data` in `generate_general_forms_docs`. -/
def id_data : Record := [
  ("id_number", .s "ID-789456123"),
  ("issue_date", .s "2022-01-15"),
  ("expiry_date", .s "2027-01-15"),
  ("name_redacted", .s "XXXXXXX XXXXXXX"),
  ("dob_redacted", .s "XX/XX/XXXX"),
  ("address_redacted", .s "XXX XXXXXXX ST, XXXXXXX, XX XXXXX")]

/-- `passport_data` in `generate_general_forms_docs`. -/
def passport_data : Record := [
  ("passport_number", .s "XXXXXXXXX"),
  ("passport_type", .s "P"),
  ("issue_date", .s "15 JAN 22"),
  ("expiry_date", .s "14 JAN 32"),
  ("surname_redacted", .s "XXXXXXX"),
  ("given_names_redacted", .s "XXXXXXX XXXXXXX"),
  ("nationality", .s "USA"),
  ("dob_redacted", .s "XX XXX XX"),
  ("pob_redacted", .s "XXXXXXX, XX, USA"),
  ("sex_redacted", .s "X")]

/-- `address_data` in `generate_general_forms_docs` (float literals kept
as exact decimals). -/
def address_data : Record := [
  ("account_number", .s "UTIL-789456"),
  ("service_address", .s "123 Main Street, Springfield, IL 62701"),
  ("billing_start", .s "2024-08-01"),
  ("billing_end", .s "2024-08-31"),
  ("bill_date", .s "2024-09-01"),
  ("due_date", .s "2024-09-25"),
  ("customer_name", .s "John M. Smith"),
  ("billing_address", .s "123 Main Street, Springfield, IL 62701"),
  ("account_type", .s "Residential"),
  ("service_type", .s "Electric, Gas, Water"),
  ("kwh_usage", .i 1245),
  ("kwh_rate", .d 1235 4),
  ("electric_charge", .d 15376 2),
  ("gas_usage", .i 45),
  ("gas_rate", .d 8950 4),
  ("gas_charge", .d 4028 2),
  ("water_usage", .i 5680),
  ("water_rate", .d 89 4),
  ("water_charge", .d 5055 2),
  ("service_fee", .d 2500 2),
  ("taxes", .d 2718 2),
  ("total_due", .d 29677 2)]

/-- `bank_data` in `generate_general_forms_docs`. -/
def bank_data : Record := [
  ("account_holder", .s "John M. Smith"),
  ("account_number_redacted", .s "XXXX-XXXX-XXXX-5678"),
  ("account_type", .s "Personal Checking"),
  ("statement_start", .s "2024-08-01"),
  ("statement_end", .s "2024-08-31"),
  ("statement_date", .s "2024-09-01"),
  ("beginning_balance", .d 284752 2),
  ("total_deposits", .d 425000 2),
  ("total_withdrawals", .d 219567 2),
  ("service_charges", .d 1500 2),
  ("interest_earned", .d 215 2),
  ("ending_balance", .d 488900 2)]

/-- `employment_data` in `generate_general_forms_docs`. -/
def employment_data : Record := [
  ("letter_date", .s "2024-09-15"),
  ("employee_name", .s "Jennifer Martinez"),
  ("employee_id", .s "EMP-5678"),
  ("position", .s "Senior Software Engineer"),
  ("department", .s "Information Technology"),
  ("employment_status", .s "Full-Time Regular Employee"),
  ("start_date", .s "2021-03-15"),
  ("current_status", .s "Active as of this letter date"),
  ("annual_salary", .i 95000),
  ("pay_frequency", .s "Bi-weekly"),
  ("employment_type", .s "Full-Time Exempt"),
  ("standard_hours", .i 40),
  ("work_location", .s "Chicago, IL Office with Remote Work Options"),
  ("performance_note", .s "excellent technical skills and professional conduct")]

/-- `medical_data` in `generate_general_forms_docs`. -/
def medical_data : Record := [
  ("certificate_number", .s "MED-CERT-789456"),
  ("issue_date", .s "2024-09-18"),
  ("physician_name", .s "Dr. Emily Rodriguez"),
  ("physician_license", .s "MD-123456"),
  ("physician_specialty", .s "Family Medicine"),
  ("patient_name", .s "Michael Thompson"),
  ("patient_dob", .s "1985-06-22"),
  ("patient_id", .s "PAT-456789"),
  ("examination_date", .s "2024-09-15"),
  ("chief_complaint", .s "Follow-up examination after minor motor vehicle accident"),
  ("history_present_illness", .s "Patient was involved in a minor rear-end collision on 2024-09-10. Reports mild neck soreness and headache for 2-3 days following incident. No loss of consciousness. Symptoms improving."),
  ("blood_pressure", .s "128/78"),
  ("heart_rate", .s "72"),
  ("temperature", .s "98.6"),
  ("respiratory_rate", .s "16"),
  ("general_appearance", .s "Alert, well-appearing, no acute distress"),
  ("relevant_findings", .s "Mild cervical muscle tenderness, full range of motion. No neurological deficits."),
  ("diagnostic_tests", .s "Cervical spine X-rays performed - no fractures or acute abnormalities detected"),
  ("diagnosis", .s "Cervical strain (ICD-10: S13.4), Post-concussion symptoms, mild (ICD-10: F07.81)"),
  ("treatment", .s "NSAIDs for pain management, muscle relaxants as needed, physical therapy referral"),
  ("restrictions", .s "May return to regular activities. Avoid heavy lifting (>20 lbs) for 1 week. Cleared for work with standard duties."),
  ("followup", .s "Follow-up in 2 weeks if symptoms persist. Return sooner if symptoms worsen."),
  ("physician_signature", .s "Emily Rodriguez, MD"),
  ("signature_date", .s "2024-09-18"),
  ("physician_credentials", .s "MD, FAAFP")]

/-- `business_data` in `generate_liability_insurance_docs`. -/
def business_data : Record := [
  ("registration_number", .s "BRN-2024-456789"),
  ("issue_date", .s "2024-01-15"),
  ("expiration_date", .s "2025-01-15"),
  ("business_name", .s "TechSolutions Consulting LLC"),
  ("dba_name", .s "TechSolutions"),
  ("business_type", .s "Limited Liability Company"),
  ("industry", .s "Information Technology Services"),
  ("federal_ein", .s "12-3456789"),
  ("state_tax_id", .s "ST-789456123"),
  ("street_address", .s "456 Innovation Drive, Suite 200"),
  ("city", .s "Chicago"),
  ("state", .s "Illinois"),
  ("zip_code", .s "60601"),
  ("phone", .s "(312) 555-0123"),
  ("email", .s "info@techsolutions.com"),
  ("principal_owner", .s "Jennifer Martinez"),
  ("owner_title", .s "Managing Member"),
  ("ownership_percentage", .s "75%"),
  ("owner_address", .s "123 Elm Street, Chicago, IL 60602"),
  ("activities", .l ["Software development and consulting",
                     "IT infrastructure design and implementation",
                     "Cybersecurity consulting",
                     "Data analytics and business intelligence",
                     "Cloud computing services"])]

/-- `financial_data` in `generate_liability_insurance_docs`. -/
def financial_data : Record := [
  ("company_name", .s "TechSolutions Consulting LLC"),
  ("period_start", .s "2024-01-01"),
  ("period_end", .s "2024-12-31"),
  ("statement_date", .s "2024-12-31"),
  ("prepared_by", .s "Johnson & Associates CPA"),
  ("cpa_firm", .s "Johnson & Associates CPA"),
  ("cash", .i 125000),
  ("accounts_receivable", .i 85000),
  ("inventory", .i 15000),
  ("prepaid_expenses", .i 12000),
  ("total_current_assets", .i 237000),
  ("ppe", .i 95000),
  ("accumulated_depreciation", .i 28000),
  ("net_fixed_assets", .i 67000),
  ("total_assets", .i 304000),
  ("accounts_payable", .i 45000),
  ("accrued_expenses", .i 22000),
  ("short_term_debt", .i 18000),
  ("total_current_liabilities", .i 85000),
  ("long_term_debt", .i 45000),
  ("total_liabilities", .i 130000),
  ("common_stock", .i 50000),
  ("retained_earnings", .i 124000),
  ("total_equity", .i 174000),
  ("total_liab_equity", .i 304000),
  ("revenue", .i 850000),
  ("cogs", .i 425000),
  ("gross_profit", .i 425000),
  ("salaries", .i 245000),
  ("rent_utilities", .i 48000),
  ("marketing", .i 25000),
  ("professional_services", .i 15000),
  ("other_expenses", .i 32000),
  ("total_operating_expenses", .i 365000),
  ("operating_income", .i 60000),
  ("interest_expense", .i 5000),
  ("income_before_taxes", .i 55000),
  ("tax_expense", .i 12000),
  ("net_income", .i 43000)]

/-- `policy_data` in `generate_liability_insurance_docs` (renamed here
to avoid clashing with the motor-insurance `policy_data`). -/
def liability_policy_data : Record := [
  ("policy_number", .s "GL-2024-789012"),
  ("effective_date", .s "2024-01-01"),
  ("expiration_date", .s "2024-12-31"),
  ("insurance_company", .s "Metropolitan Business Insurance Co."),
  ("agent_name", .s "Sarah Thompson, CIC"),
  ("issue_date", .s "2023-12-15"),
  ("business_name", .s "TechSolutions Consulting LLC"),
  ("business_address", .s "456 Innovation Drive, Suite 200, Chicago, IL 60601"),
  ("business_phone", .s "(312) 555-0123"),
  ("principal_contact", .s "Jennifer Martinez"),
  ("industry_classification", .s "Computer Systems Design Services"),
  ("each_occurrence", .i 1000000),
  ("general_aggregate", .i 2000000),
  ("personal_injury_limit", .i 1000000),
  ("products_ops_occurrence", .i 1000000),
  ("products_ops_aggregate", .i 2000000),
  ("medical_expenses", .i 5000),
  ("bd_pd_premium", .i 2850),
  ("personal_injury_premium", .i 450),
  ("products_ops_premium", .i 675),
  ("medical_premium", .i 125),
  ("total_premium", .i 4100),
  ("deductible", .i 2500),
  ("claims_phone", .s "(800) 555-CLAIM"),
  ("claims_hotline", .s "(800) 555-2524"),
  ("claims_website", .s "www.metrobusiness.com/claims")]

/-- `contract_data` in `generate_liability_insurance_docs`. -/
def contract_data : Record := [
  ("contract_number", .s "SA-2024-3456"),
  ("effective_date", .s "2024-09-01"),
  ("contract_term", .s "12 months"),
  ("contract_value", .i 125000),
  ("provider_name", .s "TechSolutions Consulting LLC"),
  ("provider_address", .s "456 Innovation Drive, Suite 200, Chicago, IL 60601"),
  ("provider_contact", .s "Jennifer Martinez"),
  ("provider_phone", .s "(312) 555-0123"),
  ("provider_email", .s "jennifer@techsolutions.com"),
  ("client_name", .s "Global Manufacturing Corp"),
  ("client_address", .s "789 Industrial Blvd, Springfield, IL 62701"),
  ("client_contact", .s "Robert Johnson"),
  ("client_phone", .s "(217) 555-7890"),
  ("client_email", .s "rjohnson@globalmanufacturing.com"),
  ("scope_of_work", .s "Implementation of comprehensive ERP system including:\n• System analysis and requirements gathering\n• Software configuration and customization  \n• Data migration from legacy systems\n• User training and documentation\n• Go-live support and warranty period"),
  ("service_location", .s "Client facilities at 789 Industrial Blvd, Springfield, IL 62701"),
  ("completion_date", .s "2025-02-28"),
  ("initial_payment", .i 31250),
  ("initial_due_date", .s "2024-09-15"),
  ("progress_payment_1", .i 37500),
  ("progress_due_1", .s "2024-11-30"),
  ("progress_payment_2", .i 37500),
  ("progress_due_2", .s "2025-01-31"),
  ("final_payment", .i 18750),
  ("final_due_date", .s "2025-03-15"),
  ("total_payments", .i 125000),
  ("required_gl_coverage", .i 1000000),
  ("required_pl_coverage", .i 1000000),
  ("required_auto_coverage", .i 500000),
  ("provider_signatory", .s "Jennifer Martinez"),
  ("provider_title", .s "Managing Member"),
  ("client_signatory", .s "Robert Johnson"),
  ("client_title", .s "IT Director")]

/-- `risk_data` in `generate_liability_insurance_docs`. -/
def risk_data : Record := [
  ("assessment_id", .s "RA-2024-7890"),
  ("assessment_date", .s "2024-08-15"),
  ("assessor_name", .s "Michael Davis, ARM"),
  ("company_name", .s "TechSolutions Consulting LLC"),
  ("industry", .s "Information Technology Services"),
  ("assessment_type", .s "Comprehensive Liability Risk Assessment"),
  ("overall_risk_rating", .s "MODERATE"),
  ("key_concerns", .s "cyber security exposures and professional liability risks"),
  ("strengths", .s "strong financial position and established risk management procedures"),
  ("premises_risk", .s "Low"),
  ("product_risk", .s "Medium"),
  ("professional_risk", .s "High"),
  ("cyber_risk", .s "High"),
  ("employment_risk", .s "Low"),
  ("environmental_risk", .s "Low"),
  ("recommended_gl_limit", .i 1000000),
  ("recommended_pl_limit", .i 2000000),
  ("recommended_cyber_limit", .i 1000000),
  ("improvement_1", .s "Implement formal cybersecurity training program"),
  ("improvement_2", .s "Establish written professional services standards"),
  ("improvement_3", .s "Regular third-party security assessments"),
  ("assessor_signature", .s "Michael Davis, ARM"),
  ("assessor_certification", .s "Associate in Risk Management (ARM)"),
  ("signature_date", .s "2024-08-20")]

/-! ### The collection of all renderer templates, and the batch drivers -/

/-- Every renderer template in the repository (the claim form appears
once per `is_blank` mode). -/
def allTemplates : List (List BTmpl) := [
  vehicle_registration_tmpl,
  drivers_license_tmpl,
  vehicle_inspection_report_tmpl,
  insurance_policy_tmpl,
  claim_form_tmpl false,
  claim_form_tmpl true,
  property_deed_tmpl,
  building_permit_tmpl,
  fire_safety_certificate_tmpl,
  property_valuation_tmpl,
  construction_specifications_tmpl,
  id_card_tmpl,
  passport_sample_tmpl,
  proof_of_address_tmpl,
  bank_statement_tmpl,
  employment_letter_tmpl,
  medical_certificate_tmpl,
  business_registration_tmpl,
  financial_statement_tmpl,
  liability_policy_tmpl,
  contract_document_tmpl,
  risk_assessment_tmpl]

/-- Minimal filesystem state: the directories that exist and the files
written so far, in write order. -/
structure FS where
  dirs : List String
  files : List String
deriving DecidableEq, Repr

/-- Worker for `dirname`: drop a reversed path's characters up to and
including the first slash. -/
def dirnameRev : List Char → List Char
  | [] => []
  | c :: rest => if c = '/' then rest else dirnameRev rest

/-- Directory part of a path (text before the final slash). -/
def dirname (p : String) : String :=
  String.mk (dirnameRev p.data.reverse).reverse

/-- Run a driver's fixed sequence of render-and-write jobs.  Modelled
from the spec: a write requires the category directory to exist (the
drivers create no directories), a failed render raises and, with no
handler in the drivers, stops the run; each successful job writes
exactly one file. -/
def runBatch (fs : FS) : List (String × ROut (List Block)) → FS × Option RErr
  | [] => (fs, none)
  | (p, res) :: rest =>
    match res with
    | .fail e => (fs, some e)
    | .ok _ =>
      if dirname p ∈ fs.dirs then
        runBatch { fs with files := fs.files ++ [p] } rest
      else (fs, some .ioError)

/-- The job list of `generate_motor_insurance_docs`, parameterised by
the records it passes to each renderer (the driver itself applies it to
its literal sample data). -/
def motorJobs (v1 v2 d1 d2 insp pol clm : Record) : List (String × ROut (List Block)) := [
  ("test-documents/motor-insurance/vehicle_registration_1.pdf", create_vehicle_registration v1),
  ("test-documents/motor-insurance/vehicle_registration_2.pdf", create_vehicle_registration v2),
  ("test-documents/motor-insurance/drivers_license_1.pdf", create_drivers_license d1),
  ("test-documents/motor-insurance/drivers_license_2.pdf", create_drivers_license d2),
  ("test-documents/motor-insurance/vehicle_inspection_report.pdf", create_vehicle_inspection_report insp),
  ("test-documents/motor-insurance/insurance_policy.pdf", create_insurance_policy pol),
  ("test-documents/motor-insurance/claim_form_completed.pdf", create_claim_form clm false),
  ("test-documents/motor-insurance/claim_form_blank.pdf", create_claim_form [] true)]

/-- `generate_motor_insurance_docs()` as a filesystem transformer. -/
def generate_motor_insurance_docs (fs : FS) : FS × Option RErr :=
  runBatch fs (motorJobs vehicle_data_1 vehicle_data_2 driver_data_1 driver_data_2
    inspection_data policy_data claim_data)

/-- The job list of `generate_fire_insurance_docs`. -/
def fireJobs (prop perm safe val cons : Record) : List (String × ROut (List Block)) := [
  ("test-documents/fire-insurance/property_deed.pdf", create_property_deed prop),
  ("test-documents/fire-insurance/building_permit.pdf", create_building_permit perm),
  ("test-documents/fire-insurance/fire_safety_certificate.pdf", create_fire_safety_certificate safe),
  ("test-documents/fire-insurance/property_valuation_report.pdf", create_property_valuation val),
  ("test-documents/fire-insurance/construction_specifications.pdf", create_construction_specifications cons)]

/-- `generate_fire_insurance_docs()` as a filesystem transformer. -/
def generate_fire_insurance_docs (fs : FS) : FS × Option RErr :=
  runBatch fs (fireJobs property_data permit_data safety_data valuation_data construction_data)

/-- The job list of `generate_general_forms_docs`. -/
def generalJobs (idd pass addr bank emp med : Record) : List (String × ROut (List Block)) := [
  ("test-documents/general-forms/sample_id_card_redacted.pdf", create_id_card idd),
  ("test-documents/general-forms/sample_passport_redacted.pdf", create_passport_sample pass),
  ("test-documents/general-forms/proof_of_address_utility_bill.pdf", create_proof_of_address addr),
  ("test-documents/general-forms/bank_statement_sample.pdf", create_bank_statement bank),
  ("test-documents/general-forms/employment_verification_letter.pdf", create_employment_letter emp),
  ("test-documents/general-forms/medical_certificate.pdf", create_medical_certificate med)]

/-- `generate_general_forms_docs()` as a filesystem transformer. -/
def generate_general_forms_docs (fs : FS) : FS × Option RErr :=
  runBatch fs (generalJobs id_data passport_data address_data bank_data employment_data medical_data)

/-- The job list of `generate_liability_insurance_docs`. -/
def liabilityJobs (bus fin pol con risk : Record) : List (String × ROut (List Block)) := [
  ("test-documents/liability-insurance/business_registration_certificate.pdf", create_business_registration bus),
  ("test-documents/liability-insurance/financial_statement.pdf", create_financial_statement fin),
  ("test-documents/liability-insurance/liability_insurance_policy.pdf", create_liability_policy pol),
  ("test-documents/liability-insurance/service_contract.pdf", create_contract_document con),
  ("test-documents/liability-insurance/risk_assessment_report.pdf", create_risk_assessment risk)]

/-- `generate_liability_insurance_docs()` as a filesystem transformer. -/
def generate_liability_insurance_docs (fs : FS) : FS × Option RErr :=
  runBatch fs (liabilityJobs business_data financial_data liability_policy_data contract_data risk_data)

/-- A filesystem in which all four category directories already exist. -/
def fsReady : FS :=
  { dirs := ["test-documents/motor-insurance", "test-documents/fire-insurance",
             "test-documents/general-forms", "test-documents/liability-insurance"],
    files := [] }

/-- A fresh output tree: `test-documents/` exists but none of the
category subdirectories do. -/
def fsFresh : FS := { dirs := ["test-documents"], files := [] }

/-- Run all four batch drivers in sequence. -/
def generate_all_docs (fs : FS) : FS × Option RErr :=
  match generate_motor_insurance_docs fs with
  | (fs1, none) =>
    match generate_fire_insurance_docs fs1 with
    | (fs2, none) =>
      match generate_general_forms_docs fs2 with
      | (fs3, none) => generate_liability_insurance_docs fs3
      | out => out
    | out => out
  | out => out

/-! ### Record lemmas -/

theorem recFind_erase_self (r : Record) (k : String) :
    recFind (recErase r k) k = none := by
  induction r with
  | nil => rfl
  | cons p rest ih =>
    by_cases h : p.1 = k
    · simpa [recErase, h] using ih
    · simpa [recErase, recFind, h] using ih


theorem recFind_erase_ne (r : Record) (k k' : String) (h : k' ≠ k) :
    recFind (recErase r k) k' = recFind r k' := by
  induction r with
  | nil => rfl
  | cons p rest ih =>
    by_cases hp : p.1 = k
    · have hpk : p.1 ≠ k' := by rw [hp]; exact fun hk => h hk.symm
      simp only [recErase, List.filter_cons] at ih ⊢
      simp [hp, recFind, hpk, Ne.symm h]
      simpa [recErase] using ih
    · by_cases hpk : p.1 = k'
      · simp [recErase, List.filter_cons, recFind, hp, hpk, h]
      · simp only [recErase, List.filter_cons] at ih ⊢
        simp [hp, recFind, hpk]
        simpa [recErase] using ih

@[simp] theorem fragKeys_nil : fragKeys [] = [] := rfl

@[simp] theorem fragKeys_lit (s : String) (fs : List Frag) :
    fragKeys (.lit s :: fs) = fragKeys fs := rfl

@[simp] theorem fragKeys_ref (k : String) (f : Fmt) (fs : List Frag) :
    fragKeys (.ref k f :: fs) = k :: fragKeys fs := rfl

theorem renderFrags_erase_not_mem (r : Record) (k : String) (fs : List Frag)
    (h : k ∉ fragKeys fs) :
    renderFrags (recErase r k) fs = renderFrags r fs := by
  induction fs with
  | nil => rfl
  | cons f rest ih =>
    cases f with
    | lit s =>
      have := ih (by simpa using h)
      simp [renderFrags, this]
    | ref k2 fmt =>
      have hk : k2 ≠ k := by
        intro hkk; exact h (by simp [hkk])
      have hrest := ih (fun hm => h (by simp [hm]))
      simp [renderFrags, recFind_erase_ne r k k2 hk, hrest]

theorem renderFrags_erase_mem (r : Record) (k : String) (fs : List Frag) (s : String)
    (hok : renderFrags r fs = .ok s) (hm : k ∈ fragKeys fs) :
    renderFrags (recErase r k) fs = .fail (.keyError k) := by
  induction fs generalizing s with
  | nil => simp at hm
  | cons f rest ih =>
    cases f with
    | lit t =>
      rw [fragKeys_lit] at hm
      rw [renderFrags] at hok ⊢
      split at hok
      next s2 hrest => rw [ih s2 hrest hm]
      next e heq => exact absurd hok (by simp)
    | ref k2 fmt =>
      rw [renderFrags] at hok ⊢
      by_cases hkk : k2 = k
      · subst hkk
        rw [recFind_erase_self]
      · rw [recFind_erase_ne r k k2 hkk]
        split at hok
        next hfind => exact absurd hok (by simp)
        next v hfind =>
          split at hok
          next e hfmt => exact absurd hok (by simp)
          next s1 hfmt =>
            split at hok
            next s2 hrest =>
              have hm2 : k ∈ fragKeys rest := by
                rcases (by simpa using hm) with h1 | h2
                · exact absurd h1.symm hkk
                · exact h2
              rw [ih s2 hrest hm2]
            next e hrest => exact absurd hok (by simp)
theorem renderFrags_keyError (r : Record) (k : String) (fs : List Frag)
    (h : renderFrags r fs = .fail (.keyError k)) :
    k ∈ fragKeys fs ∧ recFind r k = none := by
  induction fs with
  | nil => exact absurd h (by simp [renderFrags])
  | cons f rest ih =>
    cases f with
    | lit t =>
      rw [renderFrags] at h
      split at h
      next s2 heq => exact absurd h (by simp)
      next e heq =>
        simp only [ROut.fail.injEq] at h
        subst h
        simpa using ih heq
    | ref k2 fmt =>
      rw [renderFrags] at h
      split at h
      next hfind =>
        simp only [ROut.fail.injEq, RErr.keyError.injEq] at h
        subst h
        exact ⟨by simp, hfind⟩
      next v hfind =>
        split at h
        next e hfmt =>
          simp only [ROut.fail.injEq] at h
          subst h
          cases fmt <;> cases v <;> simp [fmtValue] at hfmt
        next s1 hfmt =>
          split at h
          next s2 heq => exact absurd h (by simp)
          next e heq =>
            simp only [ROut.fail.injEq] at h
            subst h
            have := ih heq
            exact ⟨by simp [this.1], this.2⟩
/-! ### Cell- and row-level lemmas -/

theorem renderCells_erase_not_mem (r : Record) (k : String) (row : List (List Frag))
    (h : k ∉ (row.map fragKeys).flatten) :
    renderCells (recErase r k) row = renderCells r row := by
  induction row with
  | nil => rfl
  | cons c rest ih =>
    have hc : k ∉ fragKeys c := fun hm => h (by simp [hm])
    have hrest := ih (fun hm => h (by simpa using Or.inr (by simpa using hm)))
    simp [renderCells, renderFrags_erase_not_mem r k c hc, hrest]

theorem renderCells_erase_mem (r : Record) (k : String) (row : List (List Frag))
    (cs : List String) (hok : renderCells r row = .ok cs)
    (hm : k ∈ (row.map fragKeys).flatten) :
    renderCells (recErase r k) row = .fail (.keyError k) := by
  induction row generalizing cs with
  | nil => simp at hm
  | cons c rest ih =>
    rw [renderCells] at hok ⊢
    split at hok
    next e heq => exact absurd hok (by simp)
    next s heq =>
      by_cases hc : k ∈ fragKeys c
      · rw [renderFrags_erase_mem r k c s heq hc]
      · rw [renderFrags_erase_not_mem r k c hc, heq]
        split at hok
        next e heq2 => exact absurd hok (by simp)
        next ss heq2 =>
          have hm2 : k ∈ (rest.map fragKeys).flatten := by
            rcases (by simpa using hm) with h1 | h2
            · exact absurd h1 hc
            · simpa using h2
          rw [ih ss heq2 hm2]

theorem renderCells_keyError (r : Record) (k : String) (row : List (List Frag))
    (h : renderCells r row = .fail (.keyError k)) :
    k ∈ (row.map fragKeys).flatten ∧ recFind r k = none := by
  induction row with
  | nil => exact absurd h (by simp [renderCells])
  | cons c rest ih =>
    rw [renderCells] at h
    split at h
    next e heq =>
      simp only [ROut.fail.injEq] at h
      subst h
      have := renderFrags_keyError r k c heq
      exact ⟨by simp [this.1], this.2⟩
    next s heq =>
      split at h
      next e heq2 =>
        simp only [ROut.fail.injEq] at h
        subst h
        have := ih heq2
        refine ⟨by simpa using Or.inr (by simpa using this.1), this.2⟩
      next ss heq2 => exact absurd h (by simp)

theorem renderRows_erase_not_mem (r : Record) (k : String)
    (rows : List (List (List Frag)))
    (h : k ∉ (rows.map (fun row => (row.map fragKeys).flatten)).flatten) :
    renderRows (recErase r k) rows = renderRows r rows := by
  induction rows with
  | nil => rfl
  | cons row rest ih =>
    have hr : k ∉ (row.map fragKeys).flatten := fun hm => h (by simp [hm])
    have hrest := ih (fun hm => h (by simpa using Or.inr (by simpa using hm)))
    simp [renderRows, renderCells_erase_not_mem r k row hr, hrest]

theorem renderRows_erase_mem (r : Record) (k : String)
    (rows : List (List (List Frag))) (rs : List (List String))
    (hok : renderRows r rows = .ok rs)
    (hm : k ∈ (rows.map (fun row => (row.map fragKeys).flatten)).flatten) :
    renderRows (recErase r k) rows = .fail (.keyError k) := by
  induction rows generalizing rs with
  | nil => simp at hm
  | cons row rest ih =>
    rw [renderRows] at hok ⊢
    split at hok
    next e heq => exact absurd hok (by simp)
    next cs heq =>
      by_cases hr : k ∈ (row.map fragKeys).flatten
      · rw [renderCells_erase_mem r k row cs heq hr]
      · rw [renderCells_erase_not_mem r k row hr, heq]
        split at hok
        next e heq2 => exact absurd hok (by simp)
        next rss heq2 =>
          have hm2 : k ∈ (rest.map (fun row => (row.map fragKeys).flatten)).flatten := by
            rw [List.map_cons, List.flatten_cons] at hm
            rcases List.mem_append.mp hm with h1 | h2
            · exact absurd h1 hr
            · exact h2
          rw [ih rss heq2 hm2]

theorem renderRows_keyError (r : Record) (k : String)
    (rows : List (List (List Frag)))
    (h : renderRows r rows = .fail (.keyError k)) :
    k ∈ (rows.map (fun row => (row.map fragKeys).flatten)).flatten ∧ recFind r k = none := by
  induction rows with
  | nil => exact absurd h (by simp [renderRows])
  | cons row rest ih =>
    rw [renderRows] at h
    split at h
    next e heq =>
      simp only [ROut.fail.injEq] at h
      subst h
      have := renderCells_keyError r k row heq
      exact ⟨by simp [this.1], this.2⟩
    next cs heq =>
      split at h
      next e heq2 =>
        simp only [ROut.fail.injEq] at h
        subst h
        have := ih heq2
        exact ⟨by simpa using Or.inr (by simpa using this.1), this.2⟩
      next rss heq2 => exact absurd h (by simp)
/-! ### Block- and template-level lemmas -/

theorem renderBlock_erase_mem (r : Record) (k : String) (b : BTmpl) (bs : List Block)
    (hok : renderBlock r b = .ok bs) (hm : k ∈ blockKeys b) :
    renderBlock (recErase r k) b = .fail (.keyError k) := by
  cases b with
  | para fs =>
    rw [renderBlock] at hok ⊢
    split at hok
    next s heq => rw [renderFrags_erase_mem r k fs s heq (by simpa [blockKeys] using hm)]
    next e heq => exact absurd hok (by simp)
  | table rows =>
    rw [renderBlock] at hok ⊢
    split at hok
    next rs heq => rw [renderRows_erase_mem r k rows rs heq (by simpa [blockKeys] using hm)]
    next e heq => exact absurd hok (by simp)
  | listGetDefault key dflt bullet => simp [blockKeys] at hm
  | truthyList key bullet ph => simp [blockKeys] at hm

theorem renderBlock_erase_ok (r : Record) (k : String) (b : BTmpl) (bs : List Block)
    (hok : renderBlock r b = .ok bs) (hm : k ∉ blockKeys b) :
    ∃ bs2, renderBlock (recErase r k) b = .ok bs2 := by
  cases b with
  | para fs =>
    refine ⟨bs, ?_⟩
    rw [renderBlock] at hok ⊢
    rw [renderFrags_erase_not_mem r k fs (by simpa [blockKeys] using hm)]
    exact hok
  | table rows =>
    refine ⟨bs, ?_⟩
    rw [renderBlock] at hok ⊢
    rw [renderRows_erase_not_mem r k rows (by simpa [blockKeys] using hm)]
    exact hok
  | listGetDefault key dflt bullet =>
    rw [renderBlock] at hok ⊢
    by_cases hkk : key = k
    · subst hkk
      rw [recFind_erase_self]
      exact ⟨_, rfl⟩
    · rw [recFind_erase_ne r k key hkk]
      exact ⟨bs, hok⟩
  | truthyList key bullet ph =>
    rw [renderBlock] at hok ⊢
    by_cases hkk : key = k
    · subst hkk
      rw [recFind_erase_self]
      exact ⟨_, rfl⟩
    · rw [recFind_erase_ne r k key hkk]
      exact ⟨bs, hok⟩

theorem renderBlock_keyError (r : Record) (k : String) (b : BTmpl)
    (h : renderBlock r b = .fail (.keyError k)) :
    k ∈ blockKeys b ∧ recFind r k = none := by
  cases b with
  | para fs =>
    rw [renderBlock] at h
    split at h
    next s heq => exact absurd h (by simp)
    next e heq =>
      simp only [ROut.fail.injEq] at h
      subst h
      simpa [blockKeys] using renderFrags_keyError r k fs heq
  | table rows =>
    rw [renderBlock] at h
    split at h
    next rs heq => exact absurd h (by simp)
    next e heq =>
      simp only [ROut.fail.injEq] at h
      subst h
      simpa [blockKeys] using renderRows_keyError r k rows heq
  | listGetDefault key dflt bullet =>
    rw [renderBlock] at h
    split at h
    next hfind => exact absurd h (by simp)
    next v hfind =>
      split at h
      next xs heq => exact absurd h (by simp)
      next e heq =>
        simp only [ROut.fail.injEq] at h
        subst h
        cases v <;> simp [Value.iterStrs] at heq
  | truthyList key bullet ph =>
    rw [renderBlock] at h
    split at h
    next hfind => exact absurd h (by simp)
    next v hfind =>
      split at h
      next htr =>
        split at h
        next xs heq => exact absurd h (by simp)
        next e heq =>
          simp only [ROut.fail.injEq] at h
          subst h
          cases v <;> simp [Value.iterStrs] at heq
      next htr => exact absurd h (by simp)

theorem renderTmpl_erase_mem (r : Record) (k : String) (t : List BTmpl)
    (bs : List Block) (hok : renderTmpl r t = .ok bs) (hm : k ∈ tmplReqKeys t) :
    renderTmpl (recErase r k) t = .fail (.keyError k) := by
  induction t generalizing bs with
  | nil => simp [tmplReqKeys] at hm
  | cons b rest ih =>
    rw [renderTmpl] at hok ⊢
    split at hok
    next e heq => exact absurd hok (by simp)
    next bs1 heq =>
      by_cases hb : k ∈ blockKeys b
      · rw [renderBlock_erase_mem r k b bs1 heq hb]
      · obtain ⟨bs2, heq2⟩ := renderBlock_erase_ok r k b bs1 heq hb
        rw [heq2]
        split at hok
        next e heq3 => exact absurd hok (by simp)
        next bss heq3 =>
          have hm2 : k ∈ tmplReqKeys rest := by
            rw [tmplReqKeys, List.map_cons, List.flatten_cons] at hm
            rcases List.mem_append.mp hm with h1 | h2
            · exact absurd h1 hb
            · exact h2
          rw [ih bss heq3 hm2]

theorem renderTmpl_keyError (r : Record) (k : String) (t : List BTmpl)
    (h : renderTmpl r t = .fail (.keyError k)) :
    k ∈ tmplReqKeys t ∧ recFind r k = none := by
  induction t with
  | nil => exact absurd h (by simp [renderTmpl])
  | cons b rest ih =>
    rw [renderTmpl] at h
    split at h
    next e heq =>
      simp only [ROut.fail.injEq] at h
      subst h
      have := renderBlock_keyError r k b heq
      refine ⟨?_, this.2⟩
      rw [tmplReqKeys, List.map_cons, List.flatten_cons]
      exact List.mem_append.mpr (Or.inl this.1)
    next bs1 heq =>
      split at h
      next e heq2 =>
        simp only [ROut.fail.injEq] at h
        subst h
        have := ih heq2
        refine ⟨?_, this.2⟩
        rw [tmplReqKeys, List.map_cons, List.flatten_cons]
        exact List.mem_append.mpr (Or.inr this.1)
      next bss heq2 => exact absurd h (by simp)
/-! ### Constant-output and positional lemmas -/

/-- Blocks emitted by a successful render of a constant paragraph that a
template contains: the literal line is always in the output. -/
theorem renderTmpl_const_line (r : Record) (t : List BTmpl) (i : Nat) (s : String)
    (bs : List Block) (hget : t.get? i = some (.para [.lit s]))
    (hok : renderTmpl r t = .ok bs) : Block.line s ∈ bs := by
  induction t generalizing i bs with
  | nil => simp at hget
  | cons b rest ih =>
    rw [renderTmpl] at hok
    split at hok
    next e heq => exact absurd hok (by simp)
    next bs1 heq =>
      split at hok
      next e heq2 => exact absurd hok (by simp)
      next bss heq2 =>
        simp only [ROut.ok.injEq] at hok
        subst hok
        cases i with
        | zero =>
          simp only [List.get?] at hget
          have hb : b = .para [.lit s] := by simpa using hget
          subst hb
          have : bs1 = [Block.line (s ++ "")] := by
            rw [renderBlock, renderFrags, renderFrags] at heq
            simpa using heq.symm
          subst this
          simp [String.append_empty]
        | succ j =>
          have := ih j bss (by simpa using hget) heq2
          exact List.mem_append.mpr (Or.inr this)

/-- A fragment list made only of literals. -/
def fragsConst (fs : List Frag) : Bool :=
  fs.all (fun f => match f with | .lit _ => true | .ref _ _ => false)

/-- A template block whose output cannot depend on the record. -/
def blockConst : BTmpl → Bool
  | .para fs => fragsConst fs
  | .table rows => rows.all (fun row => row.all fragsConst)
  | .listGetDefault _ _ _ => false
  | .truthyList _ _ _ => false

theorem renderFrags_const (r r2 : Record) (fs : List Frag) (h : fragsConst fs = true) :
    renderFrags r fs = renderFrags r2 fs := by
  induction fs with
  | nil => rfl
  | cons f rest ih =>
    cases f with
    | lit t =>
      have := ih (by simpa [fragsConst] using h)
      simp [renderFrags, this]
    | ref k fmt => simp [fragsConst] at h

theorem renderCells_const (r r2 : Record) (row : List (List Frag))
    (h : row.all fragsConst = true) :
    renderCells r row = renderCells r2 row := by
  induction row with
  | nil => rfl
  | cons c rest ih =>
    simp only [List.all_cons, Bool.and_eq_true] at h
    have hc := renderFrags_const r r2 c h.1
    have hrest := ih h.2
    simp [renderCells, hc, hrest]

theorem renderBlock_const (r r2 : Record) (b : BTmpl) (h : blockConst b = true) :
    renderBlock r b = renderBlock r2 b := by
  cases b with
  | para fs =>
    have := renderFrags_const r r2 fs (by simpa [blockConst] using h)
    simp [renderBlock, this]
  | table rows =>
    have : renderRows r rows = renderRows r2 rows := by
      induction rows with
      | nil => rfl
      | cons row rest ih =>
        simp only [blockConst, List.all_cons, Bool.and_eq_true] at h
        have hc := renderCells_const r r2 row h.1
        have hrest := ih (by simpa [blockConst] using h.2)
        simp [renderRows, hc, hrest]
    simp [renderBlock, this]
  | listGetDefault key dflt bullet => simp [blockConst] at h
  | truthyList key bullet ph => simp [blockConst] at h

/-- A fully constant template renders identically on every record. -/
theorem renderTmpl_const (r r2 : Record) (t : List BTmpl)
    (h : t.all blockConst = true) :
    renderTmpl r t = renderTmpl r2 t := by
  induction t with
  | nil => rfl
  | cons b rest ih =>
    simp only [List.all_cons, Bool.and_eq_true] at h
    have hb := renderBlock_const r r2 b h.1
    have hrest := ih h.2
    simp [renderTmpl, hb, hrest]

/-- A template block that emits exactly one output block. -/
def simpleBlock : BTmpl → Bool
  | .para _ => true
  | .table _ => true
  | .listGetDefault _ _ _ => false
  | .truthyList _ _ _ => false

theorem renderBlock_simple (r : Record) (b : BTmpl) (bs : List Block)
    (hs : simpleBlock b = true) (hok : renderBlock r b = .ok bs) :
    ∃ ob, bs = [ob] := by
  cases b with
  | para fs =>
    rw [renderBlock] at hok
    split at hok
    next s heq => exact ⟨_, by simpa using hok.symm⟩
    next e heq => exact absurd hok (by simp)
  | table rows =>
    rw [renderBlock] at hok
    split at hok
    next rs heq => exact ⟨_, by simpa using hok.symm⟩
    next e heq => exact absurd hok (by simp)
  | listGetDefault key dflt bullet => simp [simpleBlock] at hs
  | truthyList key bullet ph => simp [simpleBlock] at hs

/-- In a template of one-output blocks the i-th output block comes from
the i-th template block. -/
theorem renderTmpl_simple_get (r : Record) (t : List BTmpl) (bs : List Block)
    (hs : t.all simpleBlock = true) (hok : renderTmpl r t = .ok bs) :
    ∀ i b, t.get? i = some b → ∃ ob, renderBlock r b = .ok [ob] ∧ bs.get? i = some ob := by
  induction t generalizing bs with
  | nil => intro i b hget; simp at hget
  | cons b0 rest ih =>
    intro i b hget
    simp only [List.all_cons, Bool.and_eq_true] at hs
    rw [renderTmpl] at hok
    split at hok
    next e heq => exact absurd hok (by simp)
    next bs1 heq =>
      split at hok
      next e heq2 => exact absurd hok (by simp)
      next bss heq2 =>
        simp only [ROut.ok.injEq] at hok
        subst hok
        obtain ⟨ob1, hob1⟩ := renderBlock_simple r b0 bs1 hs.1 heq
        subst hob1
        cases i with
        | zero =>
          have hb : b0 = b := by simpa using hget
          subst hb
          exact ⟨ob1, heq, rfl⟩
        | succ j =>
          obtain ⟨ob, hob, hgetj⟩ := ih bss hs.2 heq2 j b (by simpa using hget)
          exact ⟨ob, hob, by simpa using hgetj⟩

/-- Position lemma for rendered table rows. -/
theorem renderRows_get (r : Record) (rows : List (List (List Frag)))
    (rs : List (List String)) (hok : renderRows r rows = .ok rs) :
    ∀ j row, rows.get? j = some row → ∃ cs, renderCells r row = .ok cs ∧ rs.get? j = some cs := by
  induction rows generalizing rs with
  | nil => intro j row hget; simp at hget
  | cons row0 rest ih =>
    intro j row hget
    rw [renderRows] at hok
    split at hok
    next e heq => exact absurd hok (by simp)
    next cs0 heq =>
      split at hok
      next e heq2 => exact absurd hok (by simp)
      next rss heq2 =>
        simp only [ROut.ok.injEq] at hok
        subst hok
        cases j with
        | zero =>
          have hr : row0 = row := by simpa using hget
          subst hr
          exact ⟨cs0, heq, rfl⟩
        | succ jj =>
          obtain ⟨cs, hcs, hg⟩ := ih rss heq2 jj row (by simpa using hget)
          exact ⟨cs, hcs, by simpa using hg⟩

/-! ### Batch-driver lemmas -/

/-- Once a job in a driver sequence fails, no later job executes: the
filesystem stays as the successful prefix left it and the failure
surfaces. -/
theorem runBatch_fail_stops (fs : FS) (pre : List (String × ROut (List Block)))
    (p : String) (e : RErr) (post : List (String × ROut (List Block)))
    (h : (runBatch fs pre).2 = none) :
    runBatch fs (pre ++ (p, .fail e) :: post) = ((runBatch fs pre).1, some e) := by
  induction pre generalizing fs with
  | nil => rfl
  | cons j rest ih =>
    obtain ⟨q, res⟩ := j
    cases res with
    | fail e2 => simp [runBatch] at h
    | ok bs =>
      rw [List.cons_append, runBatch]
      rw [runBatch] at h ⊢
      by_cases hd : dirname q ∈ fs.dirs
      · simp only [hd, if_true] at h ⊢
        exact ih _ h
      · simp [hd] at h
/-! ### Formatting-shape lemmas (for the currency claims) -/

theorem digitChar_ne_comma_dot (m : Nat) (hm : m < 10) :
    Char.ofNat (48 + m) ≠ ',' ∧ Char.ofNat (48 + m) ≠ '.' := by
  interval_cases m <;> exact ⟨by decide, by decide⟩

theorem natDigits_ne_comma_dot (n : Nat) (c : Char) (h : c ∈ natDigits n) :
    c ≠ ',' ∧ c ≠ '.' := by
  induction n using Nat.strong_induction_on with
  | _ n ih =>
    rw [natDigits_eq] at h
    split at h
    next hlt =>
      simp only [List.mem_singleton] at h
      subst h
      exact digitChar_ne_comma_dot n hlt
    next hlt =>
      rcases List.mem_append.mp h with h1 | h2
      · exact ih (n / 10) (Nat.div_lt_self (by omega) (by omega)) h1
      · simp only [List.mem_singleton] at h2
        subst h2
        exact digitChar_ne_comma_dot (n % 10) (Nat.mod_lt n (by omega))

theorem mem_commaGroupRevAux : ∀ (fuel : Nat) (ds : List Char) (c : Char),
    c ∈ commaGroupRevAux fuel ds → c ∈ ds ∨ c = ',' := by
  intro fuel
  induction fuel with
  | zero => intro ds c h; exact Or.inl h
  | succ m ih =>
    intro ds c h
    have hstep : commaGroupRevAux (m + 1) ds =
        if ds.length ≤ 3 then ds
        else ds.take 3 ++ ',' :: commaGroupRevAux m (ds.drop 3) := rfl
    rw [hstep] at h
    split at h
    next => exact Or.inl h
    next =>
      rcases List.mem_append.mp h with h1 | h2
      · exact Or.inl (List.mem_of_mem_take h1)
      · rcases List.mem_cons.mp h2 with h3 | h4
        · exact Or.inr h3
        · rcases ih (ds.drop 3) c h4 with h5 | h6
          · exact Or.inl (List.mem_of_mem_drop h5)
          · exact Or.inr h6

theorem mem_commaGroupRev (ds : List Char) (c : Char) (h : c ∈ commaGroupRev ds) :
    c ∈ ds ∨ c = ',' :=
  mem_commaGroupRevAux ds.length ds c h

theorem comma_mem_commaGroupRev (ds : List Char) (h : 3 < ds.length) :
    ',' ∈ commaGroupRev ds := by
  rw [commaGroupRev]
  obtain ⟨m, hm⟩ : ∃ m, ds.length = m + 1 := ⟨ds.length - 1, by omega⟩
  have hstep : commaGroupRevAux (m + 1) ds =
      if ds.length ≤ 3 then ds
      else ds.take 3 ++ ',' :: commaGroupRevAux m (ds.drop 3) := rfl
  rw [hm, hstep, if_neg (by omega)]
  exact List.mem_append.mpr (Or.inr (List.mem_cons_self _ _))

/-- The `:,` rendering of a natural number contains no decimal point. -/
theorem pyCommaNat_no_dot (n : Nat) : '.' ∉ (pyCommaNat n).data := by
  intro h
  rw [pyCommaNat] at h
  have h1 : '.' ∈ commaGroupRev (natDigits n).reverse := List.mem_reverse.mp h
  rcases mem_commaGroupRev _ _ h1 with h2 | h3
  · exact (natDigits_ne_comma_dot n _ (List.mem_reverse.mp h2)).2 rfl
  · exact absurd h3 (by decide)

/-- The `:,` rendering of an int contains no decimal point. -/
theorem pyCommaInt_no_dot (n : Int) : '.' ∉ (pyCommaInt n).data := by
  intro h
  rw [pyCommaInt, String.data_append] at h
  rcases List.mem_append.mp h with h1 | h2
  · split at h1 <;> simp at h1
  · exact pyCommaNat_no_dot n.natAbs h2

theorem natDigits_length_pos (n : Nat) : 0 < (natDigits n).length := by
  rw [natDigits_eq]
  split <;> simp

theorem natDigits_length_ge (k : Nat) : ∀ n, 10 ^ k ≤ n → k + 1 ≤ (natDigits n).length := by
  induction k with
  | zero => intro n _; simpa using natDigits_length_pos n
  | succ k ih =>
    intro n h
    have h10 : 10 ≤ n := by
      calc 10 = 10 ^ 1 := by ring
      _ ≤ 10 ^ (k + 1) := Nat.pow_le_pow_right (by omega) (by omega)
      _ ≤ n := h
    rw [natDigits_eq, if_neg (by omega)]
    have hdiv : 10 ^ k ≤ n / 10 := by
      rw [Nat.le_div_iff_mul_le (by omega)]
      calc 10 ^ k * 10 = 10 ^ (k + 1) := by ring
      _ ≤ n := h
    have := ih (n / 10) hdiv
    simp only [List.length_append, List.length_singleton]
    omega

theorem natDigits_length_le (p : Nat) : ∀ n, n < 10 ^ p → 1 ≤ p → (natDigits n).length ≤ p := by
  induction p with
  | zero => omega
  | succ p ih =>
    intro n h _
    rw [natDigits_eq]
    split
    next =>
      simp only [List.length_singleton]
      omega
    next hge =>
      have hp1 : 1 ≤ p := by
        rcases Nat.eq_zero_or_pos p with h0 | h1
        · subst h0
          simp at h
          omega
        · exact h1
      have hdiv : n / 10 < 10 ^ p := by
        rw [Nat.div_lt_iff_lt_mul (by omega)]
        calc n < 10 ^ (p + 1) := h
        _ = 10 ^ p * 10 := by ring
      have := ih (n / 10) hdiv hp1
      simp only [List.length_append, List.length_singleton]
      omega

/-- The `:,` rendering of a natural number of at least four digits
contains a thousands separator. -/
theorem pyCommaNat_comma (n : Nat) (h : 1000 ≤ n) : ',' ∈ (pyCommaNat n).data := by
  rw [pyCommaNat]
  refine List.mem_reverse.mpr (comma_mem_commaGroupRev _ ?_)
  rw [List.length_reverse]
  have h3 : 10 ^ 3 ≤ n := by omega
  have := natDigits_length_ge 3 n h3
  omega

/-- Shape of a fixed-point rendering: some prefix, a decimal point, then
exactly `p` fractional digits, with no comma anywhere. -/
theorem renderFixed_shape (m : Int) (p : Nat) (hp : 1 ≤ p) :
    ∃ a b, renderFixed m p = a ++ "." ++ b ∧ b.data.length = p ∧
      ∀ c ∈ (a ++ "." ++ b).data, c ≠ ',' := by
  refine ⟨(if m < 0 then "-" else "") ++ pyNatStr (m.natAbs / 10 ^ p),
          String.mk (padZeros (natDigits (m.natAbs % 10 ^ p)) p), ?_, ?_, ?_⟩
  · rw [renderFixed, String.append_assoc]
  · show (padZeros (natDigits (m.natAbs % 10 ^ p)) p).length = p
    rw [padZeros, List.length_append, List.length_replicate]
    have hlt : m.natAbs % 10 ^ p < 10 ^ p := Nat.mod_lt _ (by positivity)
    have := natDigits_length_le p (m.natAbs % 10 ^ p) hlt hp
    omega
  · intro c hc
    simp only [String.data_append, List.append_assoc, List.mem_append,
      List.mem_singleton] at hc
    rcases hc with h1 | h2 | h3 | h4
    · split at h1
      · simp only [String.data] at h1
        simp at h1
        simp [h1]
      · simp only [String.data] at h1
        simp at h1
    · exact (natDigits_ne_comma_dot _ c (by simpa [pyNatStr] using h2)).1
    · simp [h3]
    · have h5 : c ∈ padZeros (natDigits (m.natAbs % 10 ^ p)) p := by
        simpa using h4
      rw [padZeros] at h5
      rcases List.mem_append.mp h5 with h6 | h7
      · have := List.eq_of_mem_replicate h6
        simp [this]
      · exact (natDigits_ne_comma_dot _ c h7).1

/-- Blocks of a successful render (empty list on failure). -/
def blocksOf : ROut (List Block) → List Block
  | .ok bs => bs
  | .fail _ => []

/-- Rows of the table block at a given index (empty if not a table). -/
def tableAt (bs : List Block) (i : Nat) : List (List String) :=
  match bs.get? i with
  | some (.table rows) => rows
  | _ => []

/-- Does one character list start with another? -/
def prefOf : List Char → List Char → Bool
  | [], _ => true
  | _ :: _, [] => false
  | a :: as, b :: bs => a = b && prefOf as bs

/-- Does a character list occur contiguously inside another? -/
def subSeq (needle : List Char) : List Char → Bool
  | [] => needle.isEmpty
  | c :: rest => prefOf needle (c :: rest) || subSeq needle rest

/-- Does some text line of the output contain the given text? -/
def lineWith (needle : String) (bs : List Block) : Bool :=
  bs.any (fun b => match b with
    | .line s => subSeq needle.data s.data
    | .table _ => false)

/-- Does some text line start with `lbl` and contain `needle`? -/
def lineLabelled (lbl needle : String) (bs : List Block) : Bool :=
  bs.any (fun b => match b with
    | .line s => prefOf lbl.data s.data && subSeq needle.data s.data
    | .table _ => false)

theorem renderTmpl_const_line_mem (r : Record) (t : List BTmpl) (s : String)
    (bs : List Block) (hmem : BTmpl.para [Frag.lit s] ∈ t)
    (hok : renderTmpl r t = .ok bs) : Block.line s ∈ bs := by
  obtain ⟨i, hi⟩ := List.get?_of_mem hmem
  exact renderTmpl_const_line r t i s bs hi hok

theorem lineWith_of_mem (needle s : String) (bs : List Block)
    (hmem : Block.line s ∈ bs) (hsub : subSeq needle.data s.data = true) :
    lineWith needle bs = true :=
  List.any_eq_true.mpr ⟨Block.line s, hmem, hsub⟩

/-- Destructure the rendering of a literal-then-lookup fragment pair
(the shape of every dollar-amount cell). -/
theorem renderFrags_lit_ref (r : Record) (t key : String) (f : Fmt) (out : String)
    (h : renderFrags r [.lit t, .ref key f] = .ok out) :
    ∃ v s, recFind r key = some v ∧ fmtValue f v = .ok s ∧ out = t ++ s := by
  rw [renderFrags] at h
  split at h
  next s2 heq =>
    rw [renderFrags] at heq
    split at heq
    next hfind => exact absurd heq (by simp)
    next v hfind =>
      split at heq
      next e hfmt => exact absurd heq (by simp)
      next s1 hfmt =>
        split at heq
        next s3 heq2 =>
          refine ⟨v, s1, hfind, hfmt, ?_⟩
          simp only [renderFrags, ROut.ok.injEq] at heq2
          simp only [ROut.ok.injEq] at h heq
          rw [← h, ← heq, ← heq2]
          simp [String.append_empty]
        next e heq2 => exact absurd heq2 (by simp [renderFrags])
  next e heq => exact absurd h (by simp)

/-! ### Claim theorems -/

/-- C1: for every document type renderer and every record, if the record
lacks a field that the renderer's fixed template reads by record lookup
(`dict[k]`), the render call fails with the missing-key error naming that
field (shown as: removing any required field from a successfully
rendering record makes the render fail with KeyError on exactly that
field); conversely, a record containing every required field never
triggers a missing-key error. -/
theorem C1_missing_required_field :
    ∀ t ∈ allTemplates,
      (∀ (r : Record) (bs : List Block) (k : String),
        renderTmpl r t = .ok bs → k ∈ tmplReqKeys t →
          renderTmpl (recErase r k) t = .fail (.keyError k)) ∧
      (∀ r : Record, (∀ k ∈ tmplReqKeys t, (recFind r k).isSome) →
        ∀ k, renderTmpl r t ≠ .fail (.keyError k)) := by
  intro t _
  refine ⟨fun r bs k hok hm => renderTmpl_erase_mem r k t bs hok hm, ?_⟩
  intro r hall k hfail
  have h := renderTmpl_keyError r k t hfail
  have h2 := hall k h.1
  rw [h.2] at h2
  simp at h2

/-- Witness for C1: removing `permit_number` from the building-permit
sample record makes `create_building_permit` fail with KeyError naming
`permit_number`. -/
theorem C1_missing_required_field_witness :
    renderTmpl (recErase permit_data "permit_number") building_permit_tmpl =
      .fail (.keyError "permit_number") :=
  (C1_missing_required_field building_permit_tmpl (by simp [allTemplates])).1
    permit_data (blocksOf (renderTmpl permit_data building_permit_tmpl))
    "permit_number" (by decide) (by decide)

/-- C7: every renderer is deterministic — its output is a pure function
of the input record.  The embedding is record-pure because no renderer
reads a clock, randomness, or other external state (the `random` and
`datetime` imports of the scripts are never used inside a renderer), so
two render calls on identical records give identical block sequences. -/
theorem C7_renderers_deterministic :
    ∀ t ∈ allTemplates, ∀ r1 r2 : Record, r1 = r2 →
      renderTmpl r1 t = renderTmpl r2 t := by
  intro t _ r1 r2 h
  rw [h]

/-- Witness for C7: two renders of the motor-registration sample record
agree. -/
theorem C7_renderers_deterministic_witness :
    renderTmpl vehicle_data_1 vehicle_registration_tmpl =
      renderTmpl vehicle_data_1 vehicle_registration_tmpl :=
  C7_renderers_deterministic vehicle_registration_tmpl (by simp [allTemplates])
    vehicle_data_1 vehicle_data_1 rfl

/-- C9: rendering the fire safety certificate from the sample record
(certificate_number FSC-2024-3456, issue_date 2024-07-20,
expiration_date 2025-07-20) succeeds, and the certificate-info table
(the block after the title) carries the three literal strings in its
first three rows, labelled Certificate Number, Issue Date and
Expiration Date. -/
theorem C9_fire_safety_certificate_scenario :
    (∃ bs, create_fire_safety_certificate safety_data = .ok bs) ∧
    (tableAt (blocksOf (create_fire_safety_certificate safety_data)) 1).get? 0 =
      some ["Certificate Number:", "FSC-2024-3456"] ∧
    (tableAt (blocksOf (create_fire_safety_certificate safety_data)) 1).get? 1 =
      some ["Issue Date:", "2024-07-20"] ∧
    (tableAt (blocksOf (create_fire_safety_certificate safety_data)) 1).get? 2 =
      some ["Expiration Date:", "2025-07-20"] :=
  ⟨⟨blocksOf (create_fire_safety_certificate safety_data), by decide⟩,
    by decide, by decide, by decide⟩

/-- The fixed testing-purposes footer line drawn by the canvas
renderers, and the first sentence of the flowing-layout footer. -/
def testingLine : String := "This is a sample document for testing purposes only"

/-- The full footer paragraph of the flowing-layout renderers. -/
def platypusFooter : String :=
  "This is a sample document for testing purposes only. All information is fictional."

/-- The fixed redaction notice of the ID card and passport renderers. -/
def redactionLine : String := "SAMPLE DOCUMENT - PERSONAL INFO REDACTED FOR PRIVACY"

/-- C10: every renderer, on every record it succeeds on, emits a fixed
record-independent testing disclaimer: every renderer except
create_id_card and create_passport_sample emits a line containing the
literal "This is a sample document for testing purposes only" (its
footer), while create_id_card and create_passport_sample each emit the
literal line "SAMPLE DOCUMENT - PERSONAL INFO REDACTED FOR PRIVACY". -/
theorem C10_testing_disclaimer :
    (∀ t ∈ allTemplates, t ≠ id_card_tmpl → t ≠ passport_sample_tmpl →
      ∀ (r : Record) (bs : List Block), renderTmpl r t = .ok bs →
        lineWith testingLine bs = true) ∧
    (∀ t, t = id_card_tmpl ∨ t = passport_sample_tmpl →
      ∀ (r : Record) (bs : List Block), renderTmpl r t = .ok bs →
        lineWith redactionLine bs = true) := by
  constructor
  · intro t ht hne1 hne2 r bs hok
    simp only [allTemplates, List.mem_cons, List.mem_singleton,
      List.not_mem_nil, or_false] at ht
    rcases ht with h|h|h|h|h|h|h|h|h|h|h|h|h|h|h|h|h|h|h|h|h|h
    · subst h
      exact lineWith_of_mem testingLine testingLine bs
        (renderTmpl_const_line_mem r _ testingLine bs (by decide) hok) (by decide)
    · subst h
      exact lineWith_of_mem testingLine testingLine bs
        (renderTmpl_const_line_mem r _ testingLine bs (by decide) hok) (by decide)
    · subst h
      exact lineWith_of_mem testingLine platypusFooter bs
        (renderTmpl_const_line_mem r _ platypusFooter bs (by decide) hok) (by decide)
    · subst h
      exact lineWith_of_mem testingLine platypusFooter bs
        (renderTmpl_const_line_mem r _ platypusFooter bs (by decide) hok) (by decide)
    · subst h
      exact lineWith_of_mem testingLine platypusFooter bs
        (renderTmpl_const_line_mem r _ platypusFooter bs (by decide) hok) (by decide)
    · subst h
      exact lineWith_of_mem testingLine platypusFooter bs
        (renderTmpl_const_line_mem r _ platypusFooter bs (by decide) hok) (by decide)
    · subst h
      exact lineWith_of_mem testingLine platypusFooter bs
        (renderTmpl_const_line_mem r _ platypusFooter bs (by decide) hok) (by decide)
    · subst h
      exact lineWith_of_mem testingLine testingLine bs
        (renderTmpl_const_line_mem r _ testingLine bs (by decide) hok) (by decide)
    · subst h
      exact lineWith_of_mem testingLine platypusFooter bs
        (renderTmpl_const_line_mem r _ platypusFooter bs (by decide) hok) (by decide)
    · subst h
      exact lineWith_of_mem testingLine platypusFooter bs
        (renderTmpl_const_line_mem r _ platypusFooter bs (by decide) hok) (by decide)
    · subst h
      exact lineWith_of_mem testingLine platypusFooter bs
        (renderTmpl_const_line_mem r _ platypusFooter bs (by decide) hok) (by decide)
    · exact absurd h hne1
    · exact absurd h hne2
    · subst h
      exact lineWith_of_mem testingLine platypusFooter bs
        (renderTmpl_const_line_mem r _ platypusFooter bs (by decide) hok) (by decide)
    · subst h
      exact lineWith_of_mem testingLine platypusFooter bs
        (renderTmpl_const_line_mem r _ platypusFooter bs (by decide) hok) (by decide)
    · subst h
      exact lineWith_of_mem testingLine platypusFooter bs
        (renderTmpl_const_line_mem r _ platypusFooter bs (by decide) hok) (by decide)
    · subst h
      exact lineWith_of_mem testingLine platypusFooter bs
        (renderTmpl_const_line_mem r _ platypusFooter bs (by decide) hok) (by decide)
    · subst h
      exact lineWith_of_mem testingLine testingLine bs
        (renderTmpl_const_line_mem r _ testingLine bs (by decide) hok) (by decide)
    · subst h
      exact lineWith_of_mem testingLine platypusFooter bs
        (renderTmpl_const_line_mem r _ platypusFooter bs (by decide) hok) (by decide)
    · subst h
      exact lineWith_of_mem testingLine platypusFooter bs
        (renderTmpl_const_line_mem r _ platypusFooter bs (by decide) hok) (by decide)
    · subst h
      exact lineWith_of_mem testingLine platypusFooter bs
        (renderTmpl_const_line_mem r _ platypusFooter bs (by decide) hok) (by decide)
    · subst h
      exact lineWith_of_mem testingLine platypusFooter bs
        (renderTmpl_const_line_mem r _ platypusFooter bs (by decide) hok) (by decide)
  · intro t ht r bs hok
    rcases ht with h | h
    · subst h
      exact lineWith_of_mem redactionLine redactionLine bs
        (renderTmpl_const_line_mem r _ redactionLine bs (by decide) hok) (by decide)
    · subst h
      exact lineWith_of_mem redactionLine redactionLine bs
        (renderTmpl_const_line_mem r _ redactionLine bs (by decide) hok) (by decide)

/-- Witness for C10: the property deed render of the sample record
carries the testing footer, and the ID card render carries the
redaction line. -/
theorem C10_testing_disclaimer_witness :
    lineWith testingLine (blocksOf (renderTmpl property_data property_deed_tmpl)) = true ∧
    lineWith redactionLine (blocksOf (renderTmpl id_data id_card_tmpl)) = true :=
  ⟨C10_testing_disclaimer.1 property_deed_tmpl (by simp [allTemplates])
      (by decide) (by decide) property_data
      (blocksOf (renderTmpl property_data property_deed_tmpl)) (by decide),
    C10_testing_disclaimer.2 id_card_tmpl (Or.inl rfl) id_data
      (blocksOf (renderTmpl id_data id_card_tmpl)) (by decide)⟩

/-- The labelled data-field lines of the blank claim form. -/
def claimFormBlankLabels : List String :=
  ["Claim Number: ", "Date of Report: ", "Policy Number: ", "Insured Name: ",
   "Phone Number: ", "Email: ", "Date of Loss: ", "Time of Loss: ", "Location: ",
   "Year/Make/Model: ", "License Plate: ", "VIN: ", "Estimated Damage: $",
   "Signature: ", "Date: "]

/-- C8: rendering the claim form with is_blank set and the empty record
succeeds without reading any record field (the blank-mode output is
identical for every record, so no data value from any record can
appear), and every data-field line carries a literal underscore
placeholder run (the free-text description field is rendered as full
underscore lines). -/
theorem C8_blank_claim_form :
    (∀ r : Record, create_claim_form r true = create_claim_form [] true) ∧
    (∃ bs, create_claim_form [] true = .ok bs ∧
      claimFormBlankLabels.all (fun lbl => lineLabelled lbl (us 8) bs) = true ∧
      Block.line (us 64) ∈ bs) :=
  ⟨fun r => renderTmpl_const r [] (claim_form_tmpl true) (by decide),
    ⟨blocksOf (create_claim_form [] true), by decide, by decide, by decide⟩⟩

/-- The drivers-license sample record with the optional `restrictions`
key removed. -/
def driver_data_absent : Record := recErase driver_data_1 "restrictions"

/-- The same record with `restrictions` bound to the empty list. -/
def driver_data_empty : Record := driver_data_absent ++ [("restrictions", Value.l [])]

/-- C2 counterexample: for the drivers-license renderer an absent
`restrictions` key and an empty list do NOT produce identical output —
absent defaults to the list ["NONE"] and prints the bullet "• NONE"
while the empty list prints nothing — and neither output contains any
"None recorded" placeholder line. -/
theorem C2_counterexample :
    create_drivers_license driver_data_absent ≠ create_drivers_license driver_data_empty ∧
    Block.line "• NONE" ∈ blocksOf (create_drivers_license driver_data_absent) ∧
    lineWith "None recorded" (blocksOf (create_drivers_license driver_data_absent)) = false ∧
    lineWith "None recorded" (blocksOf (create_drivers_license driver_data_empty)) = false :=
  ⟨by decide, by decide, by decide, by decide⟩

/-- The deed's encumbrances section (`if property_data.get(...)`). -/
def deed_encumbrances_block : BTmpl :=
  .truthyList "encumbrances" "• " "None recorded as of the date of this deed."

/-- The license back side's restrictions section
(`driver_data.get('restrictions', ['NONE'])`). -/
def dl_restrictions_block : BTmpl := .listGetDefault "restrictions" ["NONE"] "• "

/-- The permit's approvals section (`permit_data.get('approvals', [])`). -/
def permit_approvals_block : BTmpl := .listGetDefault "approvals" [] "☑ "

/-- The registration's activities section
(`business_data.get('activities', [])`). -/
def br_activities_block : BTmpl := .listGetDefault "activities" [] "• "

/-- C2 amended: only the property-deed renderer emits the fixed
placeholder ("None recorded as of the date of this deed."), and for it
an absent encumbrances key and an empty list are equivalent, while a
non-empty list yields one bulleted line per entry in list order instead
of the placeholder.  The building-permit and business-registration
renderers bullet each entry but emit nothing (no placeholder) when the
key is absent or empty.  The drivers-license renderer defaults an
absent restrictions key to ["NONE"] (one bullet "• NONE"), which is not
the empty-list output, and otherwise bullets each entry in order. -/
theorem C2_amended :
    (deed_encumbrances_block ∈ property_deed_tmpl ∧
      (∀ r : Record,
        recFind r "encumbrances" = none ∨ recFind r "encumbrances" = some (.l []) →
        renderBlock r deed_encumbrances_block =
          .ok [.line "None recorded as of the date of this deed."]) ∧
      (∀ (r : Record) (xs : List String),
        recFind r "encumbrances" = some (.l xs) → xs ≠ [] →
        renderBlock r deed_encumbrances_block =
          .ok (xs.map (fun x => .line ("• " ++ x))))) ∧
    (dl_restrictions_block ∈ drivers_license_tmpl ∧
      (∀ r : Record, recFind r "restrictions" = none →
        renderBlock r dl_restrictions_block = .ok [.line "• NONE"]) ∧
      (∀ (r : Record) (xs : List String), recFind r "restrictions" = some (.l xs) →
        renderBlock r dl_restrictions_block = .ok (xs.map (fun x => .line ("• " ++ x))))) ∧
    (permit_approvals_block ∈ building_permit_tmpl ∧
      (∀ r : Record,
        recFind r "approvals" = none ∨ recFind r "approvals" = some (.l []) →
        renderBlock r permit_approvals_block = .ok []) ∧
      (∀ (r : Record) (xs : List String), recFind r "approvals" = some (.l xs) →
        renderBlock r permit_approvals_block = .ok (xs.map (fun x => .line ("☑ " ++ x))))) ∧
    (br_activities_block ∈ business_registration_tmpl ∧
      (∀ r : Record,
        recFind r "activities" = none ∨ recFind r "activities" = some (.l []) →
        renderBlock r br_activities_block = .ok []) ∧
      (∀ (r : Record) (xs : List String), recFind r "activities" = some (.l xs) →
        renderBlock r br_activities_block = .ok (xs.map (fun x => .line ("• " ++ x))))) := by
  refine ⟨⟨by decide, ?_, ?_⟩, ⟨by decide, ?_, ?_⟩, ⟨by decide, ?_, ?_⟩, ⟨by decide, ?_, ?_⟩⟩
  · intro r h
    rcases h with h | h <;> simp [renderBlock, deed_encumbrances_block, h, Value.truthy]
  · intro r xs h hne
    simp [renderBlock, deed_encumbrances_block, h, Value.truthy, Value.iterStrs, hne]
  · intro r h
    simp [renderBlock, dl_restrictions_block, h]
  · intro r xs h
    simp [renderBlock, dl_restrictions_block, h, Value.iterStrs]
  · intro r h
    rcases h with h | h <;>
      simp [renderBlock, permit_approvals_block, h, Value.iterStrs]
  · intro r xs h
    simp [renderBlock, permit_approvals_block, h, Value.iterStrs]
  · intro r h
    rcases h with h | h <;>
      simp [renderBlock, br_activities_block, h, Value.iterStrs]
  · intro r xs h
    simp [renderBlock, br_activities_block, h, Value.iterStrs]

/-- Witness for C2's amended claim, at the sample records: the deed
placeholder on the empty record, the deed bullets on the sample record,
and the "• NONE" default when restrictions is absent. -/
theorem C2_amended_witness :
    renderBlock ([] : Record) deed_encumbrances_block =
      .ok [.line "None recorded as of the date of this deed."] ∧
    renderBlock property_data deed_encumbrances_block =
      .ok [.line "• Mortgage to First National Bank - $350,000",
           .line "• Utility easement - 10 ft rear yard"] ∧
    renderBlock driver_data_absent dl_restrictions_block = .ok [.line "• NONE"] :=
  ⟨C2_amended.1.2.1 [] (Or.inl rfl),
    C2_amended.1.2.2 property_data
      ["Mortgage to First National Bank - $350,000", "Utility easement - 10 ft rear yard"]
      (by decide) (by decide),
    C2_amended.2.1.2.1 driver_data_absent (by decide)⟩

/-- C3 counterexample: the deed's Purchase Price field, with input
485000, renders as "$485,000" — a thousands separator but NO decimal
places (no decimal point at all), so no currency field rule of "both a
thousands separator and exactly two decimal places" holds of it. -/
theorem C3_counterexample :
    (tableAt (blocksOf (create_property_deed property_data)) 5).get? 3 =
      some ["Purchase Price:", "$485,000"] ∧
    '.' ∉ "$485,000".data :=
  ⟨by decide, by decide⟩

/-- C3 amended: currency fields are formatted in one of two styles,
never both at once.  Integer fields formatted with `:,` get thousands
separators (whenever the value has at least four digits) and no decimal
point — 485000 renders as $485,000.  Decimal fields formatted with
`:.pf` (p = 2 for amounts, 4 for unit rates) get exactly p digits after
the decimal point and no thousands separator — e.g. the utility bill's
electricity amount renders as $153.76. -/
theorem C3_amended :
    (∀ n : Int, fmtValue .comma (.i n) = .ok (pyCommaInt n) ∧ '.' ∉ (pyCommaInt n).data) ∧
    (∀ n : Nat, 1000 ≤ n → ',' ∈ (pyCommaNat n).data) ∧
    (∀ (n : Int) (p : Nat), 1 ≤ p → ∃ a b,
      fmtValue (.fixed p) (.i n) = .ok (a ++ "." ++ b) ∧ b.data.length = p ∧
        ∀ c ∈ (a ++ "." ++ b).data, c ≠ ',') ∧
    (∀ (m : Int) (e p : Nat), 1 ≤ p → ∃ a b,
      fmtValue (.fixed p) (.d m e) = .ok (a ++ "." ++ b) ∧ b.data.length = p ∧
        ∀ c ∈ (a ++ "." ++ b).data, c ≠ ',') ∧
    (tableAt (blocksOf (create_property_deed property_data)) 5).get? 3 =
      some ["Purchase Price:", "$485,000"] ∧
    (tableAt (blocksOf (create_proof_of_address address_data)) 7).get? 1 =
      some ["Electricity", "1245 kWh", "$0.1235/kWh", "$153.76"] := by
  refine ⟨fun n => ⟨rfl, pyCommaInt_no_dot n⟩, pyCommaNat_comma, ?_, ?_, by decide, by decide⟩
  · intro n p hp
    obtain ⟨a, b, hab, hlen, hcm⟩ := renderFixed_shape (n * (10 : Int) ^ p) p hp
    exact ⟨a, b, by rw [fmtValue, hab], hlen, hcm⟩
  · intro m e p hp
    rw [fmtValue, fixedDec]
    by_cases he : e ≤ p
    · rw [if_pos he]
      obtain ⟨a, b, hab, hlen, hcm⟩ := renderFixed_shape (m * (10 : Int) ^ (p - e)) p hp
      exact ⟨a, b, by rw [hab], hlen, hcm⟩
    · rw [if_neg he]
      obtain ⟨a, b, hab, hlen, hcm⟩ :=
        renderFixed_shape (roundHalfEven m ((10 : Int) ^ (e - p))) p hp
      exact ⟨a, b, by rw [hab], hlen, hcm⟩

/-- Witness for C3's amended claim at the program's own inputs: 485000
with `:,` gives "485,000" (separator present, no dot), and 153.76 with
`:.2f` gives "153.76". -/
theorem C3_amended_witness :
    fmtValue .comma (.i 485000) = .ok (pyCommaInt 485000) ∧
    pyCommaInt 485000 = "485,000" ∧
    ',' ∈ (pyCommaNat 485000).data ∧
    (∃ a b, fmtValue (.fixed 2) (.d 15376 2) = .ok (a ++ "." ++ b) ∧ b.data.length = 2 ∧
      ∀ c ∈ (a ++ "." ++ b).data, c ≠ ',') :=
  ⟨(C3_amended.1 485000).1, by decide,
    C3_amended.2.1 485000 (by decide),
    C3_amended.2.2.2.1 15376 2 2 (by decide)⟩

theorem renderFrags_single_lit (r : Record) (x : String) :
    renderFrags r [.lit x] = .ok x := by
  simp [renderFrags, String.append_empty]

theorem renderBlock_table_ok (r : Record) (rows : List (List (List Frag)))
    (bs : List Block) (h : renderBlock r (.table rows) = .ok bs) :
    ∃ rs, renderRows r rows = .ok rs ∧ bs = [.table rs] := by
  rw [renderBlock] at h
  split at h
  next rs heq => exact ⟨rs, heq, by simpa using h.symm⟩
  next e heq => exact absurd h (by simp)

/-- Position lemma for the cells of a rendered row. -/
theorem renderCells_get (r : Record) (row : List (List Frag)) (cs : List String)
    (hok : renderCells r row = .ok cs) :
    ∀ j c, row.get? j = some c → ∃ s, renderFrags r c = .ok s ∧ cs.get? j = some s := by
  induction row generalizing cs with
  | nil => intro j c hget; simp at hget
  | cons c0 rest ih =>
    intro j c hget
    rw [renderCells] at hok
    split at hok
    next e heq => exact absurd hok (by simp)
    next s0 heq =>
      split at hok
      next e heq2 => exact absurd hok (by simp)
      next ss heq2 =>
        simp only [ROut.ok.injEq] at hok
        subst hok
        cases j with
        | zero =>
          have hc : c0 = c := by simpa using hget
          subst hc
          exact ⟨s0, heq, rfl⟩
        | succ jj =>
          obtain ⟨s, hs, hg⟩ := ih ss heq2 jj c (by simpa using hget)
          exact ⟨s, hs, by simpa using hg⟩

/-- The valuation record with `sales_comparison` replaced by 500000. -/
def valuation_data_alt : Record :=
  ("sales_comparison", Value.i 500000) :: recErase valuation_data "sales_comparison"

/-- Every dollar-prefixed rendering a single record value could produce
verbatim under the formats the renderers use. -/
def dollarForms (v : Value) : List String :=
  ["$" ++ v.pyStr] ++
    (match fmtValue .comma v with | .ok s => ["$" ++ s] | .fail _ => []) ++
    (match fmtValue (.fixed 2) v with | .ok s => ["$" ++ s] | .fail _ => [])

/-- C4 counterexample: in the property-valuation approaches table the
Weighted Value cell of the Sales Comparison row renders as "$297,000" —
computed by the renderer as int(495000 * 0.6) — which is not the
verbatim dollar-rendering of any single field of the record, and not a
hardcoded literal either, since changing `sales_comparison` to 500000
changes the cell to "$300,000". -/
theorem C4_counterexample :
    (tableAt (blocksOf (create_property_valuation valuation_data)) 5).get? 1 =
      some ["Sales Comparison", "$495,000", "60%", "$297,000"] ∧
    valuation_data.all (fun p => !((dollarForms p.2).contains "$297,000")) = true ∧
    (tableAt (blocksOf (create_property_valuation valuation_data_alt)) 5).get? 1 =
      some ["Sales Comparison", "$500,000", "60%", "$300,000"] :=
  ⟨by decide, by decide, by decide⟩

/-- C4 amended: the renderers never sum other numeric fields.  In the
motor insurance policy the whole Total Annual Premium row is hardcoded;
in the liability policy the Total Annual Premium cell is exactly the
`total_premium` field formatted with `:,`; in the property valuation
the Final Value cell is exactly the `final_value` field formatted with
`:,` — so each total depends only on its own field — while the Weighted
Value cells are computed by the renderer as a fixed truncated
percentage of a single field (here 60% of `sales_comparison`), not
taken verbatim from the record. -/
theorem C4_amended :
    (∀ (r : Record) (bs : List Block), create_insurance_policy r = .ok bs →
      (tableAt bs 7).get? 6 = some ["", "", "Total Annual Premium:", "$1,125.00"]) ∧
    (∀ (r : Record) (bs : List Block), create_liability_policy r = .ok bs →
      ∃ v s cs, recFind r "total_premium" = some v ∧ fmtValue .comma v = .ok s ∧
        (tableAt bs 5).get? 5 = some cs ∧ cs.get? 2 = some "Total Annual Premium:" ∧
        cs.get? 3 = some ("$" ++ s)) ∧
    (∀ (r : Record) (bs : List Block), create_property_valuation r = .ok bs →
      (∃ v s cs, recFind r "final_value" = some v ∧ fmtValue .comma v = .ok s ∧
        (tableAt bs 5).get? 4 = some cs ∧ cs.get? 2 = some "Final Value:" ∧
        cs.get? 3 = some ("$" ++ s)) ∧
      (∃ v s cs, recFind r "sales_comparison" = some v ∧
        fmtValue (.scaledComma 60 100) v = .ok s ∧
        (tableAt bs 5).get? 1 = some cs ∧ cs.get? 0 = some "Sales Comparison" ∧
        cs.get? 3 = some ("$" ++ s))) := by
  refine ⟨?_, ?_, ?_⟩
  · intro r bs hok
    have hb : insurance_policy_tmpl.get? 7 = some (.table insurance_policy_coverage_rows) := rfl
    obtain ⟨ob, hob, hget⟩ := renderTmpl_simple_get r _ bs (by decide) hok 7 _ hb
    obtain ⟨rs, hrows, hobeq⟩ := renderBlock_table_ok r _ _ hob
    have hob2 : ob = .table rs := by simpa using hobeq
    subst hob2
    have hta : tableAt bs 7 = rs := by simp only [tableAt, hget]
    obtain ⟨cs, hcs, hrs6⟩ := renderRows_get r _ rs hrows 6 _ rfl
    have hconst : renderCells r [[Frag.lit ""], [Frag.lit ""],
        [Frag.lit "Total Annual Premium:"], [Frag.lit "$1,125.00"]] =
        renderCells [] [[Frag.lit ""], [Frag.lit ""],
        [Frag.lit "Total Annual Premium:"], [Frag.lit "$1,125.00"]] :=
      renderCells_const r [] _ (by decide)
    rw [hconst] at hcs
    have hlit : renderCells ([] : Record) [[Frag.lit ""], [Frag.lit ""],
        [Frag.lit "Total Annual Premium:"], [Frag.lit "$1,125.00"]] =
        .ok ["", "", "Total Annual Premium:", "$1,125.00"] := by decide
    rw [hlit] at hcs
    simp only [ROut.ok.injEq] at hcs
    rw [hta, hrs6, ← hcs]
  · intro r bs hok
    have hb : liability_policy_tmpl.get? 5 = some (.table liability_policy_coverage_rows) := rfl
    obtain ⟨ob, hob, hget⟩ := renderTmpl_simple_get r _ bs (by decide) hok 5 _ hb
    obtain ⟨rs, hrows, hobeq⟩ := renderBlock_table_ok r _ _ hob
    have hob2 : ob = .table rs := by simpa using hobeq
    subst hob2
    have hta : tableAt bs 5 = rs := by simp only [tableAt, hget]
    obtain ⟨cs, hcs, hrs5⟩ := renderRows_get r _ rs hrows 5 _ rfl
    obtain ⟨s3, hs3, hcs3⟩ := renderCells_get r _ cs hcs 3 _ rfl
    obtain ⟨v, s, hv, hs, hout⟩ := renderFrags_lit_ref r "$" "total_premium" .comma s3 hs3
    obtain ⟨s2c, hs2c, hcs2⟩ := renderCells_get r _ cs hcs 2 _ rfl
    rw [renderFrags_single_lit] at hs2c
    simp only [ROut.ok.injEq] at hs2c
    refine ⟨v, s, cs, hv, hs, by rw [hta]; exact hrs5, by rw [hcs2, ← hs2c], ?_⟩
    rw [hcs3, hout]
  · intro r bs hok
    have hb : property_valuation_tmpl.get? 5 = some (.table valuation_approaches_rows) := rfl
    obtain ⟨ob, hob, hget⟩ := renderTmpl_simple_get r _ bs (by decide) hok 5 _ hb
    obtain ⟨rs, hrows, hobeq⟩ := renderBlock_table_ok r _ _ hob
    have hob2 : ob = .table rs := by simpa using hobeq
    subst hob2
    have hta : tableAt bs 5 = rs := by simp only [tableAt, hget]
    constructor
    · obtain ⟨cs, hcs, hrs4⟩ := renderRows_get r _ rs hrows 4 _ rfl
      obtain ⟨s3, hs3, hcs3⟩ := renderCells_get r _ cs hcs 3 _ rfl
      obtain ⟨v, s, hv, hs, hout⟩ := renderFrags_lit_ref r "$" "final_value" .comma s3 hs3
      obtain ⟨s2c, hs2c, hcs2⟩ := renderCells_get r _ cs hcs 2 _ rfl
      rw [renderFrags_single_lit] at hs2c
      simp only [ROut.ok.injEq] at hs2c
      refine ⟨v, s, cs, hv, hs, by rw [hta]; exact hrs4, by rw [hcs2, ← hs2c], ?_⟩
      rw [hcs3, hout]
    · obtain ⟨cs, hcs, hrs1⟩ := renderRows_get r _ rs hrows 1 _ rfl
      obtain ⟨s3, hs3, hcs3⟩ := renderCells_get r _ cs hcs 3 _ rfl
      obtain ⟨v, s, hv, hs, hout⟩ :=
        renderFrags_lit_ref r "$" "sales_comparison" (.scaledComma 60 100) s3 hs3
      obtain ⟨s0c, hs0c, hcs0⟩ := renderCells_get r _ cs hcs 0 _ rfl
      rw [renderFrags_single_lit] at hs0c
      simp only [ROut.ok.injEq] at hs0c
      refine ⟨v, s, cs, hv, hs, by rw [hta]; exact hrs1, by rw [hcs0, ← hs0c], ?_⟩
      rw [hcs3, hout]

/-- Witness for C4's amended claim at the sample records. -/
theorem C4_amended_witness :
    (tableAt (blocksOf (create_insurance_policy policy_data)) 7).get? 6 =
      some ["", "", "Total Annual Premium:", "$1,125.00"] ∧
    (∃ v s cs, recFind liability_policy_data "total_premium" = some v ∧
      fmtValue .comma v = .ok s ∧
      (tableAt (blocksOf (create_liability_policy liability_policy_data)) 5).get? 5 = some cs ∧
      cs.get? 2 = some "Total Annual Premium:" ∧ cs.get? 3 = some ("$" ++ s)) :=
  ⟨C4_amended.1 policy_data (blocksOf (create_insurance_policy policy_data)) (by decide),
    C4_amended.2.1 liability_policy_data
      (blocksOf (create_liability_policy liability_policy_data)) (by decide)⟩

/-- The deed sample record with its required `deed_number` removed, so
that its render call fails. -/
def property_data_bad : Record := recErase property_data "deed_number"

/-- C5 counterexample: in the fire-insurance driver, when the first
render call (the property deed) fails, the remaining four documents are
NOT generated — the run stops with the exception and writes no files —
even though the later renders (e.g. the building permit) would succeed
on their records. -/
theorem C5_counterexample :
    create_property_deed property_data_bad = .fail (.keyError "deed_number") ∧
    runBatch fsReady (fireJobs property_data_bad permit_data safety_data
      valuation_data construction_data) = (fsReady, some (.keyError "deed_number")) ∧
    (∃ bs, create_building_permit permit_data = .ok bs) :=
  ⟨by decide, by decide,
    ⟨blocksOf (create_building_permit permit_data), by decide⟩⟩

/-- C5 amended: the drivers have no exception handling, so a failure in
one document's render call aborts the batch: after any successful
prefix of jobs, a failing job surfaces its error and none of the
later invocations execute (the filesystem keeps only the prefix's
files). -/
theorem C5_amended :
    ∀ (fs : FS) (pre : List (String × ROut (List Block))) (p : String) (e : RErr)
      (post : List (String × ROut (List Block))),
      (runBatch fs pre).2 = none →
      runBatch fs (pre ++ (p, .fail e) :: post) = ((runBatch fs pre).1, some e) :=
  runBatch_fail_stops

/-- Witness for C5's amended claim: the failing deed job at the head of
the fire-insurance batch stops the whole run. -/
theorem C5_amended_witness :
    runBatch fsReady ([] ++ ("test-documents/fire-insurance/property_deed.pdf",
        ROut.fail (.keyError "deed_number")) ::
      (fireJobs property_data_bad permit_data safety_data valuation_data
        construction_data).tail) =
      ((runBatch fsReady ([] : List (String × ROut (List Block)))).1,
        some (.keyError "deed_number")) :=
  C5_amended fsReady [] _ _ _ rfl

/-- C6 counterexample: into a fresh output tree (the category
subdirectories of test-documents/ not yet existing) batch generation
does NOT succeed: the drivers create no directories, so the very first
write fails and no files at all are produced. -/
theorem C6_counterexample :
    generate_motor_insurance_docs fsFresh = (fsFresh, some .ioError) ∧
    (generate_all_docs fsFresh).1.files = [] ∧
    (generate_all_docs fsFresh).2 = some .ioError :=
  ⟨by decide, by decide, by decide⟩

/-- The 24 output paths, one per renderer invocation, in driver order. -/
def allDocPaths : List String :=
  (motorJobs vehicle_data_1 vehicle_data_2 driver_data_1 driver_data_2
      inspection_data policy_data claim_data).map Prod.fst ++
  (fireJobs property_data permit_data safety_data valuation_data
      construction_data).map Prod.fst ++
  (generalJobs id_data passport_data address_data bank_data employment_data
      medical_data).map Prod.fst ++
  (liabilityJobs business_data financial_data liability_policy_data contract_data
      risk_data).map Prod.fst

/-- C6 amended: provided the four category directories already exist,
batch generation of all document types succeeds and writes exactly one
distinct file per renderer invocation — 8 motor-insurance, 5
fire-insurance, 6 general-forms and 5 liability-insurance files, 24 in
all, no extras and no omissions; the drivers themselves never create
directories, so into a fresh output tree the first write fails
instead. -/
theorem C6_amended :
    (generate_all_docs fsReady).2 = none ∧
    (generate_all_docs fsReady).1.files = allDocPaths ∧
    allDocPaths.length = 24 ∧
    ((motorJobs vehicle_data_1 vehicle_data_2 driver_data_1 driver_data_2
        inspection_data policy_data claim_data).map Prod.fst).length = 8 ∧
    ((fireJobs property_data permit_data safety_data valuation_data
        construction_data).map Prod.fst).length = 5 ∧
    ((generalJobs id_data passport_data address_data bank_data employment_data
        medical_data).map Prod.fst).length = 6 ∧
    ((liabilityJobs business_data financial_data liability_policy_data
        contract_data risk_data).map Prod.fst).length = 5 ∧
    allDocPaths.Nodup ∧
    (generate_motor_insurance_docs fsFresh).1.files = [] :=
  ⟨by decide, by decide, by decide, by decide, by decide, by decide, by decide,
    by decide, by decide⟩

end DocGen
